import Mathlib

/-! pidgin-chime: session store, request channel and login helpers.

A shallow embedding of `src/connection.c` and `src/login.c`.

* C strings that may be `NULL` are `Option String`.
* GLib lists are Lean lists; a `GHashTable` with string keys is an
  association list with unique keys.
* Calls into the host and into libsoup that only have an effect outside the
  program (property notifications, error reports, submitted requests,
  invoked response handlers) are recorded, in order, in an event log.
* json-glib and libxml2 are libraries outside the repository: their data
  types are modelled as trees and their parsers are parameters.
-/

set_option autoImplicit false

namespace Chime

/-! ## json-glib -/

/-- A node of a json-glib document. `string`, `int`, `double` and `boolean`
are the nodes of type `JSON_NODE_VALUE`. -/
inductive JsonNode where
  | null
  | string (s : String)
  | int (i : Int)
  | double (text : String)
  | boolean (b : Bool)
  | array (items : List JsonNode)
  | object (members : List (String × JsonNode))

/-- A `JsonObject *`: the members in insertion order. -/
abbrev JsonObject := List (String × JsonNode)

/-- `json_node_get_object`: the object held by the node, `NULL` when the node
is `NULL` or holds something else. -/
def json_node_get_object : Option JsonNode → Option JsonObject
  | some (.object members) => some members
  | _ => none

/-- `json_object_get_member`: `NULL` when the object is `NULL` or has no such
member. -/
def json_object_get_member : Option JsonObject → String → Option JsonNode
  | some members, name => members.lookup name
  | none, _ => none

/-- `json_node_get_string`: the string of a string node, `NULL` for every
other node. -/
def json_node_get_string : JsonNode → Option String
  | .string s => some s
  | _ => none

/-- `JSON_NODE_HOLDS_VALUE`: the node has type `JSON_NODE_VALUE`. -/
def JSON_NODE_HOLDS_VALUE : JsonNode → Bool
  | .string _ => true
  | .int _ => true
  | .double _ => true
  | .boolean _ => true
  | _ => false

/-- `JSON_NODE_HOLDS_OBJECT`, which is false on a `NULL` root. -/
def JSON_NODE_HOLDS_OBJECT : Option JsonNode → Bool
  | some (.object _) => true
  | _ => false

/-- `json_object_get_members`: the member names. -/
def json_object_get_members (object : JsonObject) : List String :=
  object.map Prod.fst

/-- Modelled from the spec: `parse_string` is declared in `chime.h` and defined
outside `src/`. It extracts the string member `name` of `parent`: `some s`
stands for a `TRUE` return with `*res = s`; `none` stands for `FALSE`, with
`*res` untouched, when the parent is absent or no object, or the member is
missing or not a string. -/
def parse_string (parent : Option JsonNode) (name : String) : Option String :=
  match json_object_get_member (json_node_get_object parent) name with
  | none => none
  | some node => json_node_get_string node

/-! ## libxml2 -/

/-- A node of a parsed HTML document: an element with its attributes and
children in document order, or a text node. -/
inductive xmlNode where
  | element (name : String) (attrs : List (String × String)) (children : List xmlNode)
  | text (content : String)

/-- `xmlHasProp` followed by `xmlNodeGetContent`: the value of the first
attribute called `name`, `NULL` when there is none. -/
def xmlHasProp : xmlNode → String → Option String
  | .element _ attrs _, name => attrs.lookup name
  | .text _, _ => none

/-- The node test and predicate `input[@type='T']`. -/
def is_input_of_type (type : String) : xmlNode → Bool
  | .element name attrs _ => name == "input" && attrs.lookup "type" == some type
  | .text _ => false

mutual
/-- The proper descendants of a node, in document order. -/
def xmlNode.descendants : xmlNode → List xmlNode
  | .element _ _ children => xmlNode.descendants_of_list children
  | .text _ => []
/-- The nodes of a list of siblings and their descendants, in document order. -/
def xmlNode.descendants_of_list : List xmlNode → List xmlNode
  | [] => []
  | c :: rest => c :: (xmlNode.descendants c ++ xmlNode.descendants_of_list rest)
end

mutual
/-- The step `//input[@type='T'][1]` below a node: the descendants that are the
first `input` of type `T` among the children of their parent, in document
order. -/
def xmlNode.first_inputs (type : String) : xmlNode → List xmlNode
  | .element _ _ children => xmlNode.first_inputs_of_list type false children
  | .text _ => []
/-- The same over a list of siblings; `seen` tells that an earlier sibling is
already an `input` of type `T`. -/
def xmlNode.first_inputs_of_list (type : String) (seen : Bool) : List xmlNode → List xmlNode
  | [] => []
  | c :: rest =>
    (if !seen && is_input_of_type type c then [c] else []) ++
      (xmlNode.first_inputs type c ++
        xmlNode.first_inputs_of_list type (seen || is_input_of_type type c) rest)
end

/-- A parsed document, seen through the one capability the program uses: the
node-set `xmlXPathEval` selects for a location path given by the caller, in
document order (`none` when the path cannot be evaluated). The nodes selected
by one path are taken not to contain one another. -/
structure xmlDoc where
  select : String → Option (List xmlNode)

/-- The XPath expressions `login.c` builds with `printf` from a location path
`p` given by the caller. -/
inductive XPathExpr where
  /-- The path itself: `p`. -/
  | path (p : String)
  /-- The attribute step `p/@name`. -/
  | attribute (p : String) (name : String)
  /-- The step `p//input[@type='T']`. -/
  | inputs (p : String) (type : String)
  /-- The step `p//input[@type='T'][1]/@name`. -/
  | first_input_attribute (p : String) (type : String) (name : String)
  /-- The call `string(e)`. -/
  | string (e : XPathExpr)

/-- A member of a node-set: an element or text node of the tree, or an
attribute node. -/
inductive XPathNode where
  | node (n : xmlNode)
  | attribute (name value : String)

/-- The result of `xmlXPathEval`: `XPATH_NODESET` or `XPATH_STRING`. -/
inductive xmlXPathObject where
  | nodeset (nodes : List XPathNode)
  | string (stringval : String)

mutual
/-- The text below a node, in document order. -/
def xmlNode.text_content : xmlNode → String
  | .element _ _ children => xmlNode.text_content_of_list children
  | .text content => content
/-- The text of a list of siblings. -/
def xmlNode.text_content_of_list : List xmlNode → String
  | [] => ""
  | c :: rest => xmlNode.text_content c ++ xmlNode.text_content_of_list rest
end

/-- The XPath string-value of a node. -/
def XPathNode.string_value : XPathNode → String
  | .node n => n.text_content
  | .attribute _ value => value

/-- The attribute node `@name` of a node, if it has one. -/
def attribute_node (name : String) (n : xmlNode) : Option XPathNode :=
  (xmlHasProp n name).map (XPathNode.attribute name)

/-- `xmlXPathEval` on the expressions of `XPathExpr`, by the rules of XPath 1.0:
steps are taken from every node the path selects, results are in document
order, and `string()` of a node-set is the string-value of its first node, or
the empty string when the node-set is empty. `none` is a `NULL` result. -/
def xmlXPathEval (doc : xmlDoc) : XPathExpr → Option xmlXPathObject
  | .path p => (doc.select p).map (fun ns => .nodeset (ns.map XPathNode.node))
  | .attribute p name =>
    (doc.select p).map (fun ns => .nodeset (ns.filterMap (attribute_node name)))
  | .inputs p type =>
    (doc.select p).map (fun ns => .nodeset
      ((ns.map (fun n => n.descendants.filter (is_input_of_type type))).flatten.map XPathNode.node))
  | .first_input_attribute p type name =>
    (doc.select p).map (fun ns => .nodeset
      ((ns.map (fun n => n.first_inputs type)).flatten.filterMap (attribute_node name)))
  | .string e =>
    match xmlXPathEval doc e with
    | some (.nodeset []) => some (.string "")
    | some (.nodeset (n :: _)) => some (.string n.string_value)
    | some (.string s) => some (.string s)
    | none => none

/-! ## libsoup messages -/

/-- A `SoupURI`, kept as the record of how it was built. -/
inductive SoupURI where
  /-- The URI parsed from a string. -/
  | parsed (s : String)
  /-- Modelled from the spec: `soup_uri_new_printf` is defined outside `src/`;
  the URI is `base` followed by `path`, with the query fields set by
  `soup_uri_set_query_from_fields`. -/
  | printf (base : Option String) (path : String) (query : List (String × String))
  /-- The reference `rel` resolved against `base` (`soup_uri_new_with_base`). -/
  | with_base (base : SoupURI) (rel : String)
  deriving DecidableEq

/-- The response handlers of `connection.c`; `other` stands for the handlers
of the rest of the client. -/
inductive ChimeSoupMessageCallback where
  | renew_cb
  | register_cb
  | set_status_cb
  | other (id : Nat)
  deriving DecidableEq

/-- A `SoupMessage`: the request and, once completed, the response.
`response_content_type` is what `soup_message_headers_get_content_type`
returns for the response headers (the media type without its parameters, or
`NULL`). -/
structure SoupMessage where
  method : String
  uri : SoupURI
  request_headers : List (String × String) := []
  request_content_type : Option String := none
  request_body : Option String := none
  status_code : Nat := 0
  response_content_type : Option String := none
  response_body : Option String := none
  deriving DecidableEq

/-- Header names are compared without regard to ASCII case. -/
def header_name_eq (a b : String) : Bool :=
  a.data.map Char.toLower == b.data.map Char.toLower

/-- `soup_message_headers_append`. -/
def soup_message_headers_append (hdrs : List (String × String)) (name value : String) :
    List (String × String) :=
  hdrs ++ [(name, value)]

/-- `soup_message_headers_replace`: every header called `name` is removed and
the new one is appended. -/
def soup_message_headers_replace (hdrs : List (String × String)) (name value : String) :
    List (String × String) :=
  soup_message_headers_append (hdrs.filter (fun h => !header_name_eq h.1 name)) name value

/-- A `struct chime_msg`: the handler, its data and the message. -/
structure chime_msg where
  cb : Option ChimeSoupMessageCallback
  cb_data : Nat
  msg : SoupMessage
  deriving DecidableEq

/-! ## The connection object -/

/-- What a call leaves outside the connection object. -/
inductive ConnEvent where
  /-- `g_object_notify(self, prop)`. -/
  | notify (prop : String)
  /-- `purple_connection_set_display_name`. -/
  | set_display_name (name : String)
  /-- `purple_connection_error_reason` with `PURPLE_CONNECTION_ERROR_NETWORK_ERROR`. -/
  | error_reason (text : String)
  /-- `soup_session_queue_message(self->soup_sess, cmsg->msg, soup_msg_cb, cmsg)`. -/
  | queue_message (cmsg : chime_msg)
  /-- A response handler other than `renew_cb` called with the message, the
  parsed JSON root and its data. -/
  | callback (cb : ChimeSoupMessageCallback) (msg : SoupMessage) (node : Option JsonNode)
      (cb_data : Nat)

/-- The fields of `ChimeConnection` that `connection.c` reads and writes, and
the log of the events it caused. -/
structure ChimeConnection where
  session_token : Option String := none
  session_id : Option String := none
  profile_channel : Option String := none
  presence_channel : Option String := none
  profile_id : Option String := none
  device_id : Option String := none
  device_channel : Option String := none
  presence_url : Option String := none
  reachability_url : Option String := none
  websocket_url : Option String := none
  profile_url : Option String := none
  contacts_url : Option String := none
  messaging_url : Option String := none
  conference_url : Option String := none
  reg_node : Option JsonNode := none
  msg_queue : List chime_msg := []
  events : List ConnEvent := []

/-- Append an event to the log. -/
def ChimeConnection.emit (self : ChimeConnection) (e : ConnEvent) : ChimeConnection :=
  { self with events := self.events ++ [e] }

/-- The token update shared by `parse_regnode` (lines 188-192) and `renew_cb`
(lines 411-415): replace and notify when `g_strcmp0` finds a difference. -/
def store_session_token (self : ChimeConnection) (sess_tok : String) : ChimeConnection :=
  if self.session_token ≠ some sess_tok then
    ({ self with session_token := some sess_tok }).emit (.notify "session-token")
  else self

/-- `parse_regnode`: the registration document is read from `self->reg_node`
(the parameter `regnode` is not used); fields are written into the connection
as they are parsed. -/
def parse_regnode (self : ChimeConnection) (_regnode : Option JsonNode) :
    Bool × ChimeConnection :=
  let obj := json_node_get_object self.reg_node
  let sess_node := json_object_get_member obj "Session"
  if sess_node.isNone then (false, self) else
  match parse_string sess_node "SessionToken" with
  | none => (false, self)
  | some sess_tok =>
  let self := store_session_token self sess_tok
  match parse_string sess_node "SessionId" with
  | none => (false, self)
  | some v =>
  let self := { self with session_id := some v }
  let obj := json_node_get_object sess_node
  let node := json_object_get_member obj "Profile"
  match parse_string node "profile_channel" with
  | none => (false, self)
  | some v =>
  let self := { self with profile_channel := some v }
  match parse_string node "presence_channel" with
  | none => (false, self)
  | some v =>
  let self := { self with presence_channel := some v }
  match parse_string node "id" with
  | none => (false, self)
  | some v =>
  let self := { self with profile_id := some v }
  match parse_string node "display_name" with
  | none => (false, self)
  | some display_name =>
  let self := self.emit (.set_display_name display_name)
  let node := json_object_get_member obj "Device"
  match parse_string node "DeviceId" with
  | none => (false, self)
  | some v =>
  let self := { self with device_id := some v }
  match parse_string node "Channel" with
  | none => (false, self)
  | some v =>
  let self := { self with device_channel := some v }
  let node := json_object_get_member obj "ServiceConfig"
  if node.isNone then (false, self) else
  let obj := json_node_get_object node
  let node := json_object_get_member obj "Presence"
  match parse_string node "RestUrl" with
  | none => (false, self)
  | some v =>
  let self := { self with presence_url := some v }
  let node := json_object_get_member obj "Push"
  match parse_string node "ReachabilityUrl" with
  | none => (false, self)
  | some v =>
  let self := { self with reachability_url := some v }
  match parse_string node "WebsocketUrl" with
  | none => (false, self)
  | some v =>
  let self := { self with websocket_url := some v }
  let node := json_object_get_member obj "Profile"
  match parse_string node "RestUrl" with
  | none => (false, self)
  | some v =>
  let self := { self with profile_url := some v }
  let node := json_object_get_member obj "Contacts"
  match parse_string node "RestUrl" with
  | none => (false, self)
  | some v =>
  let self := { self with contacts_url := some v }
  let node := json_object_get_member obj "Messaging"
  match parse_string node "RestUrl" with
  | none => (false, self)
  | some v =>
  let self := { self with messaging_url := some v }
  let node := json_object_get_member obj "Presence"
  match parse_string node "RestUrl" with
  | none => (false, self)
  | some v =>
  let self := { self with presence_url := some v }
  let node := json_object_get_member obj "Conference"
  match parse_string node "RestUrl" with
  | none => (false, self)
  | some v =>
  let self := { self with conference_url := some v }
  (true, self)

/-! ## The registration document, field by field -/

/-- Follow member names down from a node. -/
def json_path (node : Option JsonNode) : List String → Option JsonNode
  | [] => node
  | name :: rest => json_path (json_object_get_member (json_node_get_object node) name) rest

/-- The string found in a document at member `f.2` of the object at path `f.1`. -/
def reg_string (doc : Option JsonNode) (f : List String × String) : Option String :=
  parse_string (json_path doc f.1) f.2

/-- The string fields `parse_regnode` reads, in the order it reads them. -/
def reg_required : List (List String × String) :=
  [ (["Session"], "SessionToken"),
    (["Session"], "SessionId"),
    (["Session", "Profile"], "profile_channel"),
    (["Session", "Profile"], "presence_channel"),
    (["Session", "Profile"], "id"),
    (["Session", "Profile"], "display_name"),
    (["Session", "Device"], "DeviceId"),
    (["Session", "Device"], "Channel"),
    (["Session", "ServiceConfig", "Presence"], "RestUrl"),
    (["Session", "ServiceConfig", "Push"], "ReachabilityUrl"),
    (["Session", "ServiceConfig", "Push"], "WebsocketUrl"),
    (["Session", "ServiceConfig", "Profile"], "RestUrl"),
    (["Session", "ServiceConfig", "Contacts"], "RestUrl"),
    (["Session", "ServiceConfig", "Messaging"], "RestUrl"),
    (["Session", "ServiceConfig", "Conference"], "RestUrl") ]

/-- The first `n` fields of `reg_required` are all present in the document. -/
def reg_present (doc : Option JsonNode) (n : Nat) : Bool :=
  (reg_required.take n).all (fun f => (reg_string doc f).isSome)

/-- The value a store field has after `parse_regnode`, when the field is the
`n`-th one read: the document value if the first `n` fields are present, the
prior value otherwise. -/
def reg_written (doc : Option JsonNode) (n : Nat) (f : List String × String)
    (prior : Option String) : Option String :=
  if reg_present doc n then reg_string doc f else prior

/-- The events `parse_regnode` adds to the log. -/
def reg_events (doc : Option JsonNode) (prior_token : Option String) : List ConnEvent :=
  (if reg_present doc 1 ∧ prior_token ≠ reg_string doc (["Session"], "SessionToken")
    then [ConnEvent.notify "session-token"] else []) ++
  (if reg_present doc 6
    then [ConnEvent.set_display_name
      ((reg_string doc (["Session", "Profile"], "display_name")).getD "")] else [])

/-! ## The authenticated request channel -/

/-- What the program takes from its build configuration and from json-glib:
the version string of `config.h`, the serialiser `json_generator_to_data` and
the parser `json_parser_load_from_data` followed by `json_parser_get_root`
(`none` when loading fails, `some none` for a document without a root), and
from libxml2 the HTML parser `htmlReadMemory` (`none` for `NULL`). -/
structure Deps where
  PACKAGE_VERSION : String
  json_generator_to_data : JsonNode → String
  json_parser_load_from_data : String → Option (Option JsonNode)
  htmlReadMemory : String → Option xmlDoc

/-- `g_strdup_printf("_aws_wt_session=%s", token)`. -/
def cookie_header (token : Option String) : String :=
  "_aws_wt_session=" ++ token.getD "(null)"

/-- The `struct chime_msg` built by `chime_connection_queue_http_request`
(lines 499-526). -/
def new_chime_msg (deps : Deps) (self : ChimeConnection) (node : Option JsonNode)
    (uri : SoupURI) (method : String) (callback : Option ChimeSoupMessageCallback)
    (cb_data : Nat) : chime_msg :=
  let hdrs : List (String × String) := []
  let hdrs :=
    if self.session_token.isSome then
      soup_message_headers_append hdrs "Cookie" (cookie_header self.session_token)
    else hdrs
  let hdrs := soup_message_headers_append hdrs "Accept" "*/*"
  let hdrs := soup_message_headers_append hdrs "User-Agent"
    ("Pidgin-Chime " ++ deps.PACKAGE_VERSION)
  let msg : SoupMessage :=
    match node with
    | some n =>
      { method := method, uri := uri, request_headers := hdrs,
        request_content_type := some "application/json",
        request_body := some (deps.json_generator_to_data n) }
    | none => { method := method, uri := uri, request_headers := hdrs }
  { cb := callback, cb_data := cb_data, msg := msg }

/-- `chime_connection_queue_http_request`: build the message, hand it to the
session with `soup_msg_cb` as completion handler, return it. -/
def chime_connection_queue_http_request (deps : Deps) (self : ChimeConnection)
    (node : Option JsonNode) (uri : SoupURI) (method : String)
    (callback : Option ChimeSoupMessageCallback) (cb_data : Nat) :
    ChimeConnection × SoupMessage :=
  let cmsg := new_chime_msg deps self node uri method callback cb_data
  (self.emit (.queue_message cmsg), cmsg.msg)

/-- The object `json_builder_add_string_value` adds for a C string: a string
node, or a null node for `NULL`. -/
def json_string_value : Option String → JsonNode
  | some s => .string s
  | none => .null

/-- `soup_uri_set_query_from_fields(uri, name, value, NULL)`: the argument list
ends at the first `NULL`. -/
def query_from_fields (name : String) : Option String → List (String × String)
  | some value => [(name, value)]
  | none => []

/-- `chime_renew_token`: POST the current token to `<profile_url>/tokens`, with
`renew_cb` as response handler. -/
def chime_renew_token (deps : Deps) (self : ChimeConnection) : ChimeConnection :=
  let node := JsonNode.object [("Token", json_string_value self.session_token)]
  let uri := SoupURI.printf self.profile_url "/tokens"
    (query_from_fields "Token" self.session_token)
  (chime_connection_queue_http_request deps self (some node) uri "POST"
    (some .renew_cb) 0).1

/-- `g_list_first`. -/
def g_list_first {α : Type} : List α → Option α
  | [] => none
  | a :: _ => some a

/-- `g_list_remove`: drop the first element holding `data`. -/
def g_list_remove {α : Type} [DecidableEq α] (list : List α) (data : α) : List α :=
  list.erase data

/-- `g_list_append`. -/
def g_list_append {α : Type} (list : List α) (data : α) : List α :=
  list ++ [data]

/-- The queued request with its `Cookie` header replaced (line 422). -/
def chime_msg.replace_cookie (cmsg : chime_msg) (cookie_hdr : String) : chime_msg :=
  let hdrs := soup_message_headers_replace cmsg.msg.request_headers "Cookie" cookie_hdr
  { cmsg with msg := { cmsg.msg with request_headers := hdrs } }

/-- The loop of `renew_cb` (lines 419-425): while the queue has a first
element, replace its cookie, resubmit it and remove it from the queue. The
first argument bounds the number of iterations; `renew_cb` passes the queue
length. -/
def renew_cb_loop (cookie_hdr : String) : Nat → ChimeConnection → ChimeConnection
  | 0, self => self
  | fuel + 1, self =>
    match g_list_first self.msg_queue with
    | none => self
    | some cmsg =>
      let self := self.emit (.queue_message (cmsg.replace_cookie cookie_hdr))
      let self := { self with msg_queue := g_list_remove self.msg_queue cmsg }
      renew_cb_loop cookie_hdr fuel self

/-- `renew_cb`: the handler of the renewal response. -/
def renew_cb (self : ChimeConnection) (_msg : SoupMessage) (node : Option JsonNode) :
    ChimeConnection :=
  let failed := self.emit (.error_reason "Failed to renew session token")
  match node with
  | none => failed
  | some _ =>
    match parse_string node "SessionToken" with
    | none => failed
    | some sess_tok =>
      let self := store_session_token self sess_tok
      let cookie_hdr := cookie_header self.session_token
      renew_cb_loop cookie_hdr self.msg_queue.length self

/-- The call `cmsg->cb(cmsg->cxn, msg, node, cmsg->cb_data)` of line 488:
`renew_cb` is run; the call of any other handler is recorded. -/
def call_cb (cxn : ChimeConnection) (cb : ChimeSoupMessageCallback) (msg : SoupMessage)
    (node : Option JsonNode) (cb_data : Nat) : ChimeConnection :=
  match cb with
  | .renew_cb => renew_cb cxn msg node
  | cb => cxn.emit (.callback cb msg node cb_data)

/-- `soup_msg_cb`: the completion handler of every request of the channel.
The completed message is `cmsg->msg`. -/
def soup_msg_cb (deps : Deps) (cxn : ChimeConnection) (cmsg : chime_msg) : ChimeConnection :=
  let msg := cmsg.msg
  if cmsg.cb ≠ some .renew_cb ∧ msg.status_code = 401 then
    if cxn.msg_queue ≠ [] then
      { cxn with msg_queue := g_list_append cxn.msg_queue cmsg }
    else
      let cxn := { cxn with msg_queue := g_list_append cxn.msg_queue cmsg }
      chime_renew_token deps cxn
  else
    let content_type := msg.response_content_type
    let node : Option JsonNode :=
      if content_type = some "application/json" then
        match deps.json_parser_load_from_data (msg.response_body.getD "") with
        | none => none
        | some root => root
      else none
    match cmsg.cb with
    | some cb => call_cb cxn cb msg node cmsg.cb_data
    | none => cxn

/-- The JSON root `soup_msg_cb` computes for a completed message before it calls
the handler (lines 474-485): the parsed body when the content type is
`application/json` and the body loads, `NULL` otherwise. -/
def parsed_response (deps : Deps) (msg : SoupMessage) : Option JsonNode :=
  if msg.response_content_type = some "application/json" then
    match deps.json_parser_load_from_data (msg.response_body.getD "") with
    | none => none
    | some root => root
  else none

/-- Process a sequence of completions, in the order they arrive. -/
def run_completions (deps : Deps) (cxn : ChimeConnection) (cmsgs : List chime_msg) :
    ChimeConnection :=
  cmsgs.foldl (soup_msg_cb deps) cxn

/-- The requests handed to the session, in order. -/
def queued_requests : List ConnEvent → List chime_msg
  | [] => []
  | .queue_message cmsg :: rest => cmsg :: queued_requests rest
  | _ :: rest => queued_requests rest

/-- The number of `session-token` notifications in a log. -/
def token_notifications : List ConnEvent → Nat
  | [] => 0
  | .notify prop :: rest => (if prop = "session-token" then 1 else 0) + token_notifications rest
  | _ :: rest => token_notifications rest

/-! ## The login flow -/

/-- A `GHashTable` from strings to C strings: the entries, with unique keys.
A value may be `NULL`. -/
abbrev GHashTable := List (String × Option String)

/-- `g_hash_table_insert`: the value of an existing key is replaced, a new key
is added. -/
def g_hash_table_insert : GHashTable → String → Option String → GHashTable
  | [], key, value => [(key, value)]
  | (k, v) :: rest, key, value =>
    if k = key then (k, value) :: rest else (k, v) :: g_hash_table_insert rest key value

/-- `g_hash_table_lookup`: `NULL` for a missing key and for a `NULL` value. -/
def g_hash_table_lookup (table : GHashTable) (key : String) : Option String :=
  (table.lookup key).join

/-- The length in bytes of a response body. -/
def body_length (data : String) : Nat :=
  data.utf8ByteSize

/-- `chime_login_parse_json_object`: the top-level value members of a JSON
object response, `none` for `NULL`. -/
def chime_login_parse_json_object (deps : Deps) (msg : SoupMessage) : Option GHashTable :=
  let ctype := msg.response_content_type
  match msg.response_body with
  | none => none
  | some data =>
    if ctype ≠ some "application/json" ∨ body_length data ≤ 0 then none
    else
      match deps.json_parser_load_from_data data with
      | none => none
      | some node =>
        if !JSON_NODE_HOLDS_OBJECT node then none
        else
          match json_node_get_object node with
          | none => none
          | some object =>
            let members := json_object_get_members object
            some (members.foldl
              (fun result member =>
                match json_object_get_member (some object) member with
                | some node =>
                  if JSON_NODE_HOLDS_VALUE node then
                    g_hash_table_insert result member (json_node_get_string node)
                  else result
                | none => result)
              [])

/-- `xpath_exists`: the expression selects a non-empty node-set. -/
def xpath_exists (ctx : xmlDoc) (expression : XPathExpr) : Bool :=
  match xmlXPathEval ctx expression with
  | some (.nodeset nodes) => decide (nodes.length > 0)
  | _ => false

/-- `xpath_nodes`: the nodes the expression selects; the empty array when the
result is no node-set. -/
def xpath_nodes (ctx : xmlDoc) (expression : XPathExpr) : List XPathNode :=
  match xmlXPathEval ctx expression with
  | some (.nodeset nodes) => nodes
  | _ => []

/-- `xpath_string`: the expression wrapped in `string()`; `NULL` unless the
result is a string. -/
def xpath_string (ctx : xmlDoc) (expression : XPathExpr) : Option String :=
  match xmlXPathEval ctx (.string expression) with
  | some (.string stringval) => some stringval
  | _ => none

/-- `parse_html`: the document of a non-empty `text/html` response. -/
def parse_html (deps : Deps) (msg : SoupMessage) : Option xmlDoc :=
  let ctype := msg.response_content_type
  match msg.response_body with
  | none => none
  | some data =>
    if ctype ≠ some "text/html" ∨ body_length data ≤ 0 then none
    else deps.htmlReadMemory data

/-- `SOUP_METHOD_GET`. -/
def SOUP_METHOD_GET : String := "GET"

/-- The loop `(*method)[i] = g_ascii_toupper((*method)[i])`. -/
def ascii_upper (s : String) : String :=
  String.mk (s.data.map Char.toUpper)

/-- What `chime_login_parse_form` returns and stores through its pointer
arguments. -/
structure ParsedForm where
  params : Option GHashTable := none
  method : Option String := none
  action : Option SoupURI := none
  email_name : Option String := none
  password_name : Option String := none

/-- The `xmlHasProp` calls of an element of a node-set. -/
def XPathNode.has_prop : XPathNode → String → Option String
  | .node n, name => xmlHasProp n name
  | .attribute _ _, _ => none

/-- The body of the loop over the hidden inputs (lines 337-355). -/
def insert_hidden_input (params : GHashTable) (input : XPathNode) : GHashTable :=
  match input.has_prop "name" with
  | none => params
  | some name =>
    let value :=
      match input.has_prop "value" with
      | some text => text
      | none => ""
    g_hash_table_insert params name (some value)

/-- `chime_login_parse_form`. The flags tell whether `email_name` and
`password_name` are non-`NULL` pointers. The XPath context of a parsed
document is taken to exist. -/
def chime_login_parse_form (deps : Deps) (msg : SoupMessage) (form_xpath : String)
    (want_email want_password : Bool) : ParsedForm :=
  match parse_html deps msg with
  | none => {}
  | some ctx =>
    if !xpath_exists ctx (.path form_xpath) then {}
    else
      let method :=
        match xpath_string ctx (.attribute form_xpath "method") with
        | none => SOUP_METHOD_GET
        | some m => ascii_upper m
      let action :=
        match xpath_string ctx (.attribute form_xpath "action") with
        | none => msg.uri
        | some form_action => SoupURI.with_base msg.uri form_action
      let email_name :=
        if want_email then xpath_string ctx (.first_input_attribute form_xpath "email" "name")
        else none
      let password_name :=
        if want_password then
          xpath_string ctx (.first_input_attribute form_xpath "password" "name")
        else none
      let inputs := xpath_nodes ctx (.inputs form_xpath "hidden")
      let params := inputs.foldl insert_hidden_input []
      { params := some params, method := some method, action := some action,
        email_name := email_name, password_name := password_name }

/-- The response handlers of the login flow. -/
inductive LoginHandler where
  | signin_page_cb
  | signin_search_result_cb
  | chime_login_amazon
  | chime_login_warpdrive
  | chime_login_token_cb
  deriving DecidableEq

/-- The requests the login flow builds. -/
inductive LoginRequest where
  /-- `soup_form_request_new_from_hash(method, action, params)`. -/
  | form_request (method : Option String) (action : Option SoupURI) (params : GHashTable)
  /-- A GET of `uri` with `uri` as first party. -/
  | get (uri : SoupURI)
  deriving DecidableEq

/-- The codes of `CHIME_ERROR` used by the login flow. -/
inductive ChimeError where
  | AUTH_FAILED
  | REQUEST_FAILED
  | BAD_RESPONSE
  deriving DecidableEq

/-- What a login handler does outside its own variables, in order. -/
inductive LoginEvent where
  /-- `purple_debug_error`. -/
  | debug_error (text : String)
  /-- `chime_connection_fail_error(state->connection, error)`. -/
  | connection_fail_error (code : ChimeError) (message : String)
  /-- `chime_login_free_state(state)`. -/
  | free_state
  /-- `soup_session_queue_message(session, request, handler, state)`. -/
  | queue_message (request : LoginRequest) (handler : LoginHandler)
  /-- `chime_connection_set_session_token`. -/
  | set_session_token (token : String)
  /-- `chime_connection_connect`. -/
  | connection_connect
  deriving DecidableEq

/-- The part of the flow state the handlers read: the account identifier
returned by `chime_login_account_email`. -/
structure ChimeLogin where
  account_email : String

/-- `fail`: log, report the error to the connection, release the state. -/
def fail (_state : ChimeLogin) (code : ChimeError) (message : String) : List LoginEvent :=
  [.debug_error ("Login failure: " ++ message), .connection_fail_error code message,
    .free_state]

/-- `chime_login_request_failed`. -/
def chime_login_request_failed (state : ChimeLogin) (msg : SoupMessage) : List LoginEvent :=
  .debug_error ("Server returned error " ++ Nat.repr msg.status_code) ::
    fail state .REQUEST_FAILED "A request failed during authentication"

/-- `chime_login_bad_response`. -/
def chime_login_bad_response (state : ChimeLogin) (message : String) : List LoginEvent :=
  fail state .BAD_RESPONSE message

/-- Modelled from the spec: the macro `chime_login_fail_on_error` is defined in
`login-private.h`, outside `src/`. It takes the shared request-failed path and
returns from the handler on a transport-level failure, which the spec gives as
a status that is neither 2xx nor 3xx (a network error has a status below 100). -/
def chime_login_fail_on_error (msg : SoupMessage) : Bool :=
  !(decide (200 ≤ msg.status_code) && decide (msg.status_code < 400))

/-- `SEARCH_FORM`. -/
def SEARCH_FORM : String := "//form[@id='picker_email']"

/-- `signin_search_result_cb`: the handler of the provider-routing response. -/
def signin_search_result_cb (deps : Deps) (state : ChimeLogin) (msg : SoupMessage) :
    List LoginEvent :=
  if msg.status_code = 400 then
    chime_login_bad_response state ("Invalid e-mail address <" ++ state.account_email ++ ">")
  else if chime_login_fail_on_error msg then chime_login_request_failed state msg
  else
    match chime_login_parse_json_object deps msg with
    | none => chime_login_bad_response state "Error parsing provider JSON"
    | some provider_info =>
      let type := g_hash_table_lookup provider_info "provider"
      let handler : Option LoginHandler :=
        if type = some "amazon" then some .chime_login_amazon
        else if type = some "wd" then some .chime_login_warpdrive
        else none
      match handler with
      | none =>
        .debug_error "Unrecognized provider" ::
          chime_login_bad_response state "Unknown login provider"
      | some handler =>
        match g_hash_table_lookup provider_info "path" with
        | none =>
          .debug_error "Server did not provide a path" ::
            chime_login_bad_response state "Incomplete provider response"
        | some path =>
          let destination := SoupURI.with_base msg.uri path
          [.queue_message (.get destination) handler]

/-- `signin_page_cb`: the handler of the sign-in page. -/
def signin_page_cb (deps : Deps) (state : ChimeLogin) (msg : SoupMessage) : List LoginEvent :=
  if chime_login_fail_on_error msg then chime_login_request_failed state msg
  else
    let form := chime_login_parse_form deps msg SEARCH_FORM true false
    match form.params, form.email_name with
    | some params, some email_name =>
      let params := g_hash_table_insert params email_name (some state.account_email)
      [.queue_message (.form_request form.method form.action params) .signin_search_result_cb]
    | _, _ => chime_login_bad_response state "Could not find provider search form"

/-- The error codes reported to the connection by a handler run. -/
def reported_errors : List LoginEvent → List ChimeError
  | [] => []
  | .connection_fail_error code _ :: rest => code :: reported_errors rest
  | _ :: rest => reported_errors rest

/-- The requests submitted by a handler run, with their handlers. -/
def submitted_requests : List LoginEvent → List (LoginRequest × LoginHandler)
  | [] => []
  | .queue_message request handler :: rest => (request, handler) :: submitted_requests rest
  | _ :: rest => submitted_requests rest

/-! ## The token carrier -/

/-- `TOKEN_REGEX`. -/
def TOKEN_REGEX : String := "['\"]chime://sso_sessions\\?Token=([^'\"]+)['\"]"

/-- The character class of `TOKEN_REGEX`: a single quote (39) or a double
quote (34). -/
def is_quote (c : Char) : Bool :=
  c == Char.ofNat 39 || c == Char.ofNat 34

/-- The literal part of `TOKEN_REGEX`. -/
def token_carrier : List Char := "chime://sso_sessions?Token=".data

/-- Remove a literal from the front of the text, if the text starts with it. -/
def drop_literal : List Char → List Char → Option (List Char)
  | [], text => some text
  | _ :: _, [] => none
  | l :: literal, c :: text => if l = c then drop_literal literal text else none

/-- A match of `TOKEN_REGEX` that starts at the head of the text: a quote, the
literal, the longest run of characters that are no quotes, which must not be
empty, and a quote. The run is capture group 1. A shorter run cannot match,
since it would be followed by a character that is no quote. -/
def match_token_here : List Char → Option (List Char)
  | [] => none
  | q :: rest =>
    if is_quote q then
      match drop_literal token_carrier rest with
      | none => none
      | some after =>
        let value := after.takeWhile (fun c => !is_quote c)
        let tail := after.dropWhile (fun c => !is_quote c)
        if value ≠ [] ∧ tail ≠ [] then some value else none
    else none

/-- The leftmost match of `TOKEN_REGEX` in the text: its capture group 1. -/
def match_token : List Char → Option (List Char)
  | [] => none
  | c :: rest =>
    match match_token_here (c :: rest) with
    | some value => some value
    | none => match_token rest

/-- `g_regex_match_full` followed by `g_match_info_fetch`, by the rules of PCRE,
for the one pattern and capture group `login.c` uses; no other pattern is
modelled. -/
def g_regex_fetch (regex : String) (data : String) (group : Nat) : Option String :=
  if regex = TOKEN_REGEX ∧ group = 1 then (match_token data.data).map String.mk else none

/-- `chime_login_parse_regex`: the capture group of the first match of the
pattern in a non-empty body. -/
def chime_login_parse_regex (msg : SoupMessage) (regex : String) (group : Nat) :
    Option String :=
  match msg.response_body with
  | none => none
  | some data => if body_length data ≤ 0 then none else g_regex_fetch regex data group

/-- `chime_login_token_cb`: the handler of the final response of the flow. -/
def chime_login_token_cb (state : ChimeLogin) (msg : SoupMessage) : List LoginEvent :=
  if chime_login_fail_on_error msg then chime_login_request_failed state msg
  else
    match chime_login_parse_regex msg TOKEN_REGEX 1 with
    | none =>
      .debug_error "Could not find session token in final login response" ::
        chime_login_bad_response state "Unable to retrieve session token"
    | some token => [.set_session_token token, .connection_connect, .free_state]

/-- The tokens committed to the connection by a handler run. -/
def committed_tokens : List LoginEvent → List String
  | [] => []
  | .set_session_token token :: rest => token :: committed_tokens rest
  | _ :: rest => committed_tokens rest

/-- The number of times a handler run releases the flow state. -/
def release_count : List LoginEvent → Nat
  | [] => 0
  | .free_state :: rest => release_count rest + 1
  | _ :: rest => release_count rest

/-- What a handler run still does after it has released the flow state. -/
def after_release : List LoginEvent → List LoginEvent
  | [] => []
  | .free_state :: rest => rest
  | _ :: rest => after_release rest

/-! ## Hidden form fields -/

/-- The name and value of the hidden inputs below a form that carry a `name`
attribute, in document order; a missing `value` attribute counts as the empty
string. -/
def hidden_fields (form : xmlNode) : List (String × String) :=
  (form.descendants.filter (is_input_of_type "hidden")).filterMap
    (fun input => (xmlHasProp input "name").map
      (fun name => (name, (xmlHasProp input "value").getD "")))

/-- The value paired with the last occurrence of a name in a list of fields. -/
def last_value : List (String × String) → String → Option String
  | [], _ => none
  | (name, value) :: rest, k =>
    match last_value rest k with
    | some later => some later
    | none => if name = k then some value else none

/-! ## Renew-and-replay cycles -/

/-- The request `cmsg` completes with 401 on the connection, the renewal
response `node` is handled, and the replayed request completes with 401 again:
`n` such rounds. -/
def replay_cycles (deps : Deps) (msg : SoupMessage) (node : JsonNode) :
    Nat → ChimeConnection → chime_msg → ChimeConnection
  | 0, cxn, _ => cxn
  | n + 1, cxn, cmsg =>
    let waiting := soup_msg_cb deps cxn cmsg
    let renewed := renew_cb waiting msg (some node)
    replay_cycles deps msg node n renewed
      (cmsg.replace_cookie (cookie_header renewed.session_token))

/-- The renewal requests among the requests handed to the session. -/
def renewal_requests (events : List ConnEvent) : List chime_msg :=
  (queued_requests events).filter (fun c => c.cb = some .renew_cb)

/-! ## Token deliveries -/

/-- The two places where a response delivers a session token to the store: a
renewal response handled by `renew_cb`, and a registration response, which
`register_cb` stores in `reg_node` and hands to `parse_regnode` (lines 288-289). -/
inductive TokenDelivery where
  | renewal (msg : SoupMessage) (node : JsonNode)
  | registration (doc : JsonNode)

/-- The token a delivery carries, if any. -/
def TokenDelivery.token : TokenDelivery → Option String
  | .renewal _ node => parse_string (some node) "SessionToken"
  | .registration doc => reg_string (some doc) (["Session"], "SessionToken")

/-- Run the code that receives the delivery. -/
def deliver (self : ChimeConnection) : TokenDelivery → ChimeConnection
  | .renewal msg node => renew_cb self msg (some node)
  | .registration doc => (parse_regnode { self with reg_node := some doc } (some doc)).2

/-- The number of positions of a token sequence at which the value differs from
the one held just before, starting from `cur`. -/
def token_changes (cur : Option String) : List String → Nat
  | [] => 0
  | t :: rest => (if cur = some t then 0 else 1) + token_changes (some t) rest

/-- The token held after a sequence of tokens has been stored. -/
def last_token (cur : Option String) : List String → Option String
  | [] => cur
  | t :: rest => last_token (some t) rest

/-! ## Test data -/

/-- A registration document holding a session with a token and nothing else. -/
def doc_token_only : JsonNode :=
  .object [("Session", .object [("SessionToken", .string "new")])]

/-- A connection that holds the token `old` and has received `doc_token_only`. -/
def cxn_token_only : ChimeConnection :=
  { session_token := some "old", reg_node := some doc_token_only }

/-- Build parameters for the examples; the JSON functions are never reached
by them. -/
def test_deps : Deps :=
  { PACKAGE_VERSION := "1.0",
    json_generator_to_data := fun _ => "",
    json_parser_load_from_data := fun _ => none,
    htmlReadMemory := fun _ => none }

/-- A connection holding the token `old`, with an empty pending queue. -/
def cxn_idle : ChimeConnection :=
  { session_token := some "old", profile_url := some "https://profile" }

/-- The connection after request A and then request B have been submitted. -/
def cxn_two_submitted : ChimeConnection :=
  let a := chime_connection_queue_http_request test_deps cxn_idle none
    (.parsed "https://h/a") "GET" (some (.other 1)) 0
  let b := chime_connection_queue_http_request test_deps a.1 none
    (.parsed "https://h/b") "GET" (some (.other 2)) 0
  b.1

/-- Request A, completed with status 401. -/
def cmsg_a_401 : chime_msg :=
  let m := (new_chime_msg test_deps cxn_idle none (.parsed "https://h/a") "GET"
    (some (.other 1)) 0).msg
  { cb := some (.other 1), cb_data := 0, msg := { m with status_code := 401 } }

/-- Request B, completed with status 401. -/
def cmsg_b_401 : chime_msg :=
  let m := (new_chime_msg test_deps cxn_idle none (.parsed "https://h/b") "GET"
    (some (.other 2)) 0).msg
  { cb := some (.other 2), cb_data := 0, msg := { m with status_code := 401 } }

/-- The 401 of B is processed before the 401 of A. -/
def cxn_two_waiting : ChimeConnection :=
  run_completions test_deps cxn_two_submitted [cmsg_b_401, cmsg_a_401]

/-- A renewal response body carrying the token `new`. -/
def renewal_node_new : JsonNode :=
  .object [("SessionToken", .string "new")]

/-- The completed renewal request (only its handler matters). -/
def renewal_msg : SoupMessage :=
  { method := "POST", uri := .printf (some "https://profile") "/tokens" [("Token", "old")],
    status_code := 200 }

/-- The provider-routing body of the spec:
`\x7b"provider":"amazon","path":"/p","extra":\x7b"a":1\x7d\x7d`. -/
def body_provider : String :=
  "\x7b\"provider\":\"amazon\",\"path\":\"/p\",\"extra\":\x7b\"a\":1\x7d\x7d"

/-- The members of `body_provider`. -/
def members_provider : JsonObject :=
  [("provider", .string "amazon"), ("path", .string "/p"), ("extra", .object [("a", .int 1)])]

/-- A body with one numeric member: `\x7b"n":1\x7d`. -/
def body_number : String := "\x7b\"n\":1\x7d"

/-- A sign-in form without a `method` attribute. -/
def form_no_method : xmlNode :=
  .element "form" [("id", "picker_email"), ("action", "/x")]
    [.element "input" [("type", "email"), ("name", "email")] []]

/-- A sign-in form with `method="post"`. -/
def form_post : xmlNode :=
  .element "form" [("id", "picker_email"), ("method", "post"), ("action", "/x")]
    [.element "input" [("type", "email"), ("name", "email")] []]

/-- A sign-in form with a hidden field and no input of type email. -/
def form_no_email : xmlNode :=
  .element "form" [("id", "picker_email"), ("method", "post"), ("action", "/x")]
    [.element "input" [("type", "hidden"), ("name", "csrf"), ("value", "1")] []]

/-- The document whose only form with id `picker_email` is `form`. -/
def doc_with_form (form : xmlNode) : xmlDoc :=
  { select := fun p => if p = SEARCH_FORM then some [form] else none }

/-- Library functions for the login examples: the JSON parser knows the two
bodies above, the HTML parser three pages named after their forms. -/
def login_deps : Deps :=
  { PACKAGE_VERSION := "1.0",
    json_generator_to_data := fun _ => "",
    json_parser_load_from_data := fun data =>
      if data = body_provider then some (some (.object members_provider))
      else if data = body_number then some (some (.object [("n", .int 1)]))
      else none,
    htmlReadMemory := fun data =>
      if data = "form_no_method" then some (doc_with_form form_no_method)
      else if data = "form_post" then some (doc_with_form form_post)
      else if data = "form_no_email" then some (doc_with_form form_no_email)
      else none }

/-- A completed response with the given status, content type and body. -/
def response (status : Nat) (ctype body : String) : SoupMessage :=
  { method := "GET", uri := .parsed "https://h/y", status_code := status,
    response_content_type := some ctype, response_body := some body }

/-- A login attempt for the account `u@x.com`. -/
def login_state : ChimeLogin := { account_email := "u@x.com" }

/-- A final response whose carrier is not preceded by a quote:
`chime://sso_sessions?Token=ABC123"`. -/
def body_carrier_bare : String := "chime://sso_sessions?Token=ABC123\""

/-- A final response whose carrier stands between quotes:
`<a href="chime://sso_sessions?Token=ABC123">`. -/
def body_carrier_quoted : String := "<a href=\"chime://sso_sessions?Token=ABC123\">"

/-- A completed request whose response says `application/json` and whose body
is no JSON. -/
def cmsg_bad_json : chime_msg :=
  { cb := some (.other 1), cb_data := 0, msg := response 200 "application/json" "oops" }

/-- A registration document with every field `parse_regnode` reads and without
`Push.RestUrl`. -/
def doc_registration : JsonNode :=
  .object [("Session", .object [
    ("SessionToken", .string "tok"),
    ("SessionId", .string "sid"),
    ("Profile", .object [
      ("profile_channel", .string "pc"), ("presence_channel", .string "prc"),
      ("id", .string "pid"), ("display_name", .string "User")]),
    ("Device", .object [("DeviceId", .string "did"), ("Channel", .string "dc")]),
    ("ServiceConfig", .object [
      ("Presence", .object [("RestUrl", .string "https://presence")]),
      ("Push", .object [
        ("ReachabilityUrl", .string "https://reach"),
        ("WebsocketUrl", .string "wss://push")]),
      ("Profile", .object [("RestUrl", .string "https://profile")]),
      ("Contacts", .object [("RestUrl", .string "https://contacts")]),
      ("Messaging", .object [("RestUrl", .string "https://messaging")]),
      ("Conference", .object [("RestUrl", .string "https://conference")])])])]

/-- A connection that has received `doc_registration`. -/
def cxn_registration : ChimeConnection :=
  { reg_node := some doc_registration }

/-- A form whose hidden inputs repeat the name `a`, with one hidden input
without a name and one without a value. -/
def form_hidden : xmlNode :=
  .element "form" [("id", "picker_email")]
    [.element "input" [("type", "hidden"), ("name", "a"), ("value", "1")] [],
     .element "div" []
       [.element "input" [("type", "hidden"), ("value", "lost")] [],
        .element "input" [("type", "hidden"), ("name", "b")] []],
     .element "input" [("type", "hidden"), ("name", "a"), ("value", "2")] []]

/-- Library functions whose HTML parser returns the document of `form_hidden`. -/
def hidden_deps : Deps :=
  { PACKAGE_VERSION := "1.0",
    json_generator_to_data := fun _ => "",
    json_parser_load_from_data := fun _ => none,
    htmlReadMemory := fun _ => some (doc_with_form form_hidden) }

/-! # Properties -/

/-! ## The registration parser -/

theorem parse_string_none (name : String) : parse_string none name = none := rfl

theorem json_member_none (name : String) :
    json_object_get_member (json_node_get_object none) name = none := rfl

theorem store_session_token_eq (self : ChimeConnection) (sess_tok : String) :
    store_session_token self sess_tok =
      { self with
        session_token := some sess_tok
        events := self.events ++
          (if self.session_token = some sess_tok then [] else [ConnEvent.notify "session-token"]) } := by
  unfold store_session_token ChimeConnection.emit
  by_cases h : self.session_token = some sess_tok
  · cases self
    simp_all
  · simp [h]

/-- What `parse_regnode` returns and leaves in the connection, for every
connection and document. -/
theorem parse_regnode_spec (self : ChimeConnection) (regnode : Option JsonNode) :
    (parse_regnode self regnode).1 = reg_present self.reg_node 15 ∧
    (parse_regnode self regnode).2.session_token
      = reg_written self.reg_node 1 (["Session"], "SessionToken") self.session_token ∧
    (parse_regnode self regnode).2.session_id
      = reg_written self.reg_node 2 (["Session"], "SessionId") self.session_id ∧
    (parse_regnode self regnode).2.profile_channel
      = reg_written self.reg_node 3 (["Session", "Profile"], "profile_channel")
          self.profile_channel ∧
    (parse_regnode self regnode).2.presence_channel
      = reg_written self.reg_node 4 (["Session", "Profile"], "presence_channel")
          self.presence_channel ∧
    (parse_regnode self regnode).2.profile_id
      = reg_written self.reg_node 5 (["Session", "Profile"], "id") self.profile_id ∧
    (parse_regnode self regnode).2.device_id
      = reg_written self.reg_node 7 (["Session", "Device"], "DeviceId") self.device_id ∧
    (parse_regnode self regnode).2.device_channel
      = reg_written self.reg_node 8 (["Session", "Device"], "Channel") self.device_channel ∧
    (parse_regnode self regnode).2.presence_url
      = reg_written self.reg_node 9 (["Session", "ServiceConfig", "Presence"], "RestUrl")
          self.presence_url ∧
    (parse_regnode self regnode).2.reachability_url
      = reg_written self.reg_node 10 (["Session", "ServiceConfig", "Push"], "ReachabilityUrl")
          self.reachability_url ∧
    (parse_regnode self regnode).2.websocket_url
      = reg_written self.reg_node 11 (["Session", "ServiceConfig", "Push"], "WebsocketUrl")
          self.websocket_url ∧
    (parse_regnode self regnode).2.profile_url
      = reg_written self.reg_node 12 (["Session", "ServiceConfig", "Profile"], "RestUrl")
          self.profile_url ∧
    (parse_regnode self regnode).2.contacts_url
      = reg_written self.reg_node 13 (["Session", "ServiceConfig", "Contacts"], "RestUrl")
          self.contacts_url ∧
    (parse_regnode self regnode).2.messaging_url
      = reg_written self.reg_node 14 (["Session", "ServiceConfig", "Messaging"], "RestUrl")
          self.messaging_url ∧
    (parse_regnode self regnode).2.conference_url
      = reg_written self.reg_node 15 (["Session", "ServiceConfig", "Conference"], "RestUrl")
          self.conference_url ∧
    (parse_regnode self regnode).2.reg_node = self.reg_node ∧
    (parse_regnode self regnode).2.msg_queue = self.msg_queue ∧
    (parse_regnode self regnode).2.events
      = self.events ++ reg_events self.reg_node self.session_token := by
  rcases hs : json_object_get_member (json_node_get_object self.reg_node) "Session" with _ | sn
  · simp [parse_regnode, reg_written, reg_events, reg_present, reg_required, reg_string,
      json_path, store_session_token_eq, ChimeConnection.emit, parse_string_none,
      json_member_none, hs]
  rcases h1 : parse_string (some sn) "SessionToken" with _ | v1
  · simp [parse_regnode, reg_written, reg_events, reg_present, reg_required, reg_string,
      json_path, store_session_token_eq, ChimeConnection.emit, parse_string_none,
      json_member_none, hs, h1]
  rcases h2 : parse_string (some sn) "SessionId" with _ | v2
  · simp [parse_regnode, reg_written, reg_events, reg_present, reg_required, reg_string,
      json_path, store_session_token_eq, ChimeConnection.emit, parse_string_none,
      json_member_none, hs, h1, h2]
  rcases h3 : parse_string (json_object_get_member (json_node_get_object (some sn)) "Profile") "profile_channel" with _ | v3
  · simp [parse_regnode, reg_written, reg_events, reg_present, reg_required, reg_string,
      json_path, store_session_token_eq, ChimeConnection.emit, parse_string_none,
      json_member_none, hs, h1, h2, h3]
  rcases h4 : parse_string (json_object_get_member (json_node_get_object (some sn)) "Profile") "presence_channel" with _ | v4
  · simp [parse_regnode, reg_written, reg_events, reg_present, reg_required, reg_string,
      json_path, store_session_token_eq, ChimeConnection.emit, parse_string_none,
      json_member_none, hs, h1, h2, h3, h4]
  rcases h5 : parse_string (json_object_get_member (json_node_get_object (some sn)) "Profile") "id" with _ | v5
  · simp [parse_regnode, reg_written, reg_events, reg_present, reg_required, reg_string,
      json_path, store_session_token_eq, ChimeConnection.emit, parse_string_none,
      json_member_none, hs, h1, h2, h3, h4, h5]
  rcases h6 : parse_string (json_object_get_member (json_node_get_object (some sn)) "Profile") "display_name" with _ | v6
  · simp [parse_regnode, reg_written, reg_events, reg_present, reg_required, reg_string,
      json_path, store_session_token_eq, ChimeConnection.emit, parse_string_none,
      json_member_none, hs, h1, h2, h3, h4, h5, h6]
  rcases h7 : parse_string (json_object_get_member (json_node_get_object (some sn)) "Device") "DeviceId" with _ | v7
  · simp [parse_regnode, reg_written, reg_events, reg_present, reg_required, reg_string,
      json_path, store_session_token_eq, ChimeConnection.emit, parse_string_none,
      json_member_none, hs, h1, h2, h3, h4, h5, h6, h7]
  rcases h8 : parse_string (json_object_get_member (json_node_get_object (some sn)) "Device") "Channel" with _ | v8
  · simp [parse_regnode, reg_written, reg_events, reg_present, reg_required, reg_string,
      json_path, store_session_token_eq, ChimeConnection.emit, parse_string_none,
      json_member_none, hs, h1, h2, h3, h4, h5, h6, h7, h8]
  rcases hc : json_object_get_member (json_node_get_object (some sn)) "ServiceConfig" with _ | cn
  · simp [parse_regnode, reg_written, reg_events, reg_present, reg_required, reg_string,
      json_path, store_session_token_eq, ChimeConnection.emit, parse_string_none,
      json_member_none, hs, h1, h2, h3, h4, h5, h6, h7, h8, hc]
  rcases h9 : parse_string (json_object_get_member (json_node_get_object (some cn)) "Presence") "RestUrl" with _ | v9
  · simp [parse_regnode, reg_written, reg_events, reg_present, reg_required, reg_string,
      json_path, store_session_token_eq, ChimeConnection.emit, parse_string_none,
      json_member_none, hs, h1, h2, h3, h4, h5, h6, h7, h8, hc, h9]
  rcases h10 : parse_string (json_object_get_member (json_node_get_object (some cn)) "Push") "ReachabilityUrl" with _ | v10
  · simp [parse_regnode, reg_written, reg_events, reg_present, reg_required, reg_string,
      json_path, store_session_token_eq, ChimeConnection.emit, parse_string_none,
      json_member_none, hs, h1, h2, h3, h4, h5, h6, h7, h8, hc, h9, h10]
  rcases h11 : parse_string (json_object_get_member (json_node_get_object (some cn)) "Push") "WebsocketUrl" with _ | v11
  · simp [parse_regnode, reg_written, reg_events, reg_present, reg_required, reg_string,
      json_path, store_session_token_eq, ChimeConnection.emit, parse_string_none,
      json_member_none, hs, h1, h2, h3, h4, h5, h6, h7, h8, hc, h9, h10, h11]
  rcases h12 : parse_string (json_object_get_member (json_node_get_object (some cn)) "Profile") "RestUrl" with _ | v12
  · simp [parse_regnode, reg_written, reg_events, reg_present, reg_required, reg_string,
      json_path, store_session_token_eq, ChimeConnection.emit, parse_string_none,
      json_member_none, hs, h1, h2, h3, h4, h5, h6, h7, h8, hc, h9, h10, h11, h12]
  rcases h13 : parse_string (json_object_get_member (json_node_get_object (some cn)) "Contacts") "RestUrl" with _ | v13
  · simp [parse_regnode, reg_written, reg_events, reg_present, reg_required, reg_string,
      json_path, store_session_token_eq, ChimeConnection.emit, parse_string_none,
      json_member_none, hs, h1, h2, h3, h4, h5, h6, h7, h8, hc, h9, h10, h11, h12, h13]
  rcases h14 : parse_string (json_object_get_member (json_node_get_object (some cn)) "Messaging") "RestUrl" with _ | v14
  · simp [parse_regnode, reg_written, reg_events, reg_present, reg_required, reg_string,
      json_path, store_session_token_eq, ChimeConnection.emit, parse_string_none,
      json_member_none, hs, h1, h2, h3, h4, h5, h6, h7, h8, hc, h9, h10, h11, h12, h13, h14]
  rcases h15 : parse_string (json_object_get_member (json_node_get_object (some cn)) "Conference") "RestUrl" with _ | v15
  · simp [parse_regnode, reg_written, reg_events, reg_present, reg_required, reg_string,
      json_path, store_session_token_eq, ChimeConnection.emit, parse_string_none,
      json_member_none, hs, h1, h2, h3, h4, h5, h6, h7, h8, hc, h9, h10, h11, h12, h13, h14, h15]
  simp [parse_regnode, reg_written, reg_events, reg_present, reg_required, reg_string,
    json_path, store_session_token_eq, ChimeConnection.emit, parse_string_none,
    json_member_none, hs, h1, h2, h3, h4, h5, h6, h7, h8, hc, h9, h10, h11, h12, h13, h14, h15]

/-- When the session token itself cannot be read, nothing has been written. -/
theorem parse_regnode_no_token (self : ChimeConnection) (regnode : Option JsonNode)
    (h : reg_string self.reg_node (["Session"], "SessionToken") = none) :
    parse_regnode self regnode = (false, self) := by
  simp only [reg_string, json_path] at h
  rcases hs : json_object_get_member (json_node_get_object self.reg_node) "Session" with _ | sn
  · simp [parse_regnode, hs]
  · rw [hs] at h
    simp [parse_regnode, hs, h]

/-! ## C1: a failed `parse_regnode` -/

theorem reg_present_all (doc : Option JsonNode) :
    reg_present doc 15 = reg_required.all (fun f => (reg_string doc f).isSome) := by
  simp [reg_present, reg_required]

theorem reg_present_false_of_missing (doc : Option JsonNode)
    (h : ∃ f ∈ reg_required, reg_string doc f = none) : reg_present doc 15 = false := by
  obtain ⟨f, hf, hnone⟩ := h
  rw [reg_present_all, List.all_eq_false]
  exact ⟨f, hf, by simp [hnone]⟩

/-- C1 (as stated, refuted): the document `doc_token_only` lacks `SessionId` and
every later field, `parse_regnode` returns FALSE, and yet the stored token has
changed from `old` to `new` and the change has been notified. -/
theorem C1_parse_regnode_not_all_or_nothing :
    (∃ f ∈ reg_required, reg_string cxn_token_only.reg_node f = none) ∧
    (parse_regnode cxn_token_only cxn_token_only.reg_node).1 = false ∧
    cxn_token_only.session_token = some "old" ∧
    (parse_regnode cxn_token_only cxn_token_only.reg_node).2.session_token = some "new" ∧
    cxn_token_only.events = [] ∧
    (parse_regnode cxn_token_only cxn_token_only.reg_node).2.events
      = [ConnEvent.notify "session-token"] :=
  ⟨⟨(["Session"], "SessionId"), by decide, by decide⟩, by decide, rfl, by decide, rfl, rfl⟩

/-- C1 (amended): for every prior connection store and every registration
document in which at least one of the fields read by `parse_regnode` is missing,
`parse_regnode` returns FALSE; when the session token is the missing field the
store is unchanged and nothing is notified; otherwise each store field holds the
document value if it and every field read before it are present, and its prior
value if not, and the token change is notified exactly when the token is present
and differs from the prior one. -/
theorem C1_parse_regnode_failure (self : ChimeConnection) (regnode : Option JsonNode)
    (h : ∃ f ∈ reg_required, reg_string self.reg_node f = none) :
    (parse_regnode self regnode).1 = false ∧
    (reg_string self.reg_node (["Session"], "SessionToken") = none →
      (parse_regnode self regnode).2 = self) ∧
    (parse_regnode self regnode).2.session_token
      = reg_written self.reg_node 1 (["Session"], "SessionToken") self.session_token ∧
    (parse_regnode self regnode).2.session_id
      = reg_written self.reg_node 2 (["Session"], "SessionId") self.session_id ∧
    (parse_regnode self regnode).2.profile_channel
      = reg_written self.reg_node 3 (["Session", "Profile"], "profile_channel")
          self.profile_channel ∧
    (parse_regnode self regnode).2.presence_channel
      = reg_written self.reg_node 4 (["Session", "Profile"], "presence_channel")
          self.presence_channel ∧
    (parse_regnode self regnode).2.profile_id
      = reg_written self.reg_node 5 (["Session", "Profile"], "id") self.profile_id ∧
    (parse_regnode self regnode).2.device_id
      = reg_written self.reg_node 7 (["Session", "Device"], "DeviceId") self.device_id ∧
    (parse_regnode self regnode).2.device_channel
      = reg_written self.reg_node 8 (["Session", "Device"], "Channel") self.device_channel ∧
    (parse_regnode self regnode).2.presence_url
      = reg_written self.reg_node 9 (["Session", "ServiceConfig", "Presence"], "RestUrl")
          self.presence_url ∧
    (parse_regnode self regnode).2.reachability_url
      = reg_written self.reg_node 10 (["Session", "ServiceConfig", "Push"], "ReachabilityUrl")
          self.reachability_url ∧
    (parse_regnode self regnode).2.websocket_url
      = reg_written self.reg_node 11 (["Session", "ServiceConfig", "Push"], "WebsocketUrl")
          self.websocket_url ∧
    (parse_regnode self regnode).2.profile_url
      = reg_written self.reg_node 12 (["Session", "ServiceConfig", "Profile"], "RestUrl")
          self.profile_url ∧
    (parse_regnode self regnode).2.contacts_url
      = reg_written self.reg_node 13 (["Session", "ServiceConfig", "Contacts"], "RestUrl")
          self.contacts_url ∧
    (parse_regnode self regnode).2.messaging_url
      = reg_written self.reg_node 14 (["Session", "ServiceConfig", "Messaging"], "RestUrl")
          self.messaging_url ∧
    (parse_regnode self regnode).2.conference_url
      = self.conference_url ∧
    (parse_regnode self regnode).2.events
      = self.events ++ reg_events self.reg_node self.session_token := by
  have hp := reg_present_false_of_missing self.reg_node h
  obtain ⟨h0, h1, h2, h3, h4, h5, h7, h8, h9, h10, h11, h12, h13, h14, h15, -, -, hev⟩ :=
    parse_regnode_spec self regnode
  refine ⟨by rw [h0, hp], fun hn => ?_, h1, h2, h3, h4, h5, h7, h8, h9, h10, h11, h12, h13,
    h14, ?_, hev⟩
  · rw [parse_regnode_no_token self regnode hn]
  · rw [h15, reg_written, hp]
    simp

/-- C1 (amended), at `cxn_token_only`: FALSE is returned, the token has been
overwritten and the session id keeps its prior value. -/
theorem C1_parse_regnode_failure_witness :
    (∃ f ∈ reg_required, reg_string cxn_token_only.reg_node f = none) ∧
    (parse_regnode cxn_token_only none).1 = false ∧
    (parse_regnode cxn_token_only none).2.session_token
      = reg_written cxn_token_only.reg_node 1 (["Session"], "SessionToken")
          cxn_token_only.session_token ∧
    (parse_regnode cxn_token_only none).2.session_id
      = reg_written cxn_token_only.reg_node 2 (["Session"], "SessionId")
          cxn_token_only.session_id :=
  have h : ∃ f ∈ reg_required, reg_string cxn_token_only.reg_node f = none :=
    ⟨(["Session"], "SessionId"), by decide, by decide⟩
  ⟨h, (C1_parse_regnode_failure cxn_token_only none h).1,
    (C1_parse_regnode_failure cxn_token_only none h).2.2.1,
    (C1_parse_regnode_failure cxn_token_only none h).2.2.2.1⟩

/-! ## The request channel -/

/-- The renewal request issued from a connection state. -/
theorem chime_renew_token_eq (deps : Deps) (self : ChimeConnection) :
    chime_renew_token deps self =
      self.emit (.queue_message
        (new_chime_msg deps self
          (some (JsonNode.object [("Token", json_string_value self.session_token)]))
          (SoupURI.printf self.profile_url "/tokens"
            (query_from_fields "Token" self.session_token))
          "POST" (some .renew_cb) 0)) := rfl

theorem new_chime_msg_cb (deps : Deps) (self : ChimeConnection) (node : Option JsonNode)
    (uri : SoupURI) (method : String) (callback : Option ChimeSoupMessageCallback)
    (cb_data : Nat) :
    (new_chime_msg deps self node uri method callback cb_data).cb = callback := rfl

/-- A 401 on an idle channel queues the request and issues the renewal. -/
theorem soup_msg_cb_401_idle (deps : Deps) (cxn : ChimeConnection) (cmsg : chime_msg)
    (hcb : cmsg.cb ≠ some .renew_cb) (hst : cmsg.msg.status_code = 401)
    (hq : cxn.msg_queue = []) :
    soup_msg_cb deps cxn cmsg = chime_renew_token deps { cxn with msg_queue := [cmsg] } := by
  simp [soup_msg_cb, hcb, hst, hq, g_list_append]

/-- A 401 on a renewing channel only joins the queue. -/
theorem soup_msg_cb_401_renewing (deps : Deps) (cxn : ChimeConnection) (cmsg : chime_msg)
    (hcb : cmsg.cb ≠ some .renew_cb) (hst : cmsg.msg.status_code = 401)
    (hq : cxn.msg_queue ≠ []) :
    soup_msg_cb deps cxn cmsg = { cxn with msg_queue := cxn.msg_queue ++ [cmsg] } := by
  simp [soup_msg_cb, hcb, hst, hq, g_list_append]

/-- A run of 401 completions on a renewing channel appends them all and does
nothing else. -/
theorem run_completions_401_renewing (deps : Deps) (cmsgs : List chime_msg) :
    ∀ (cxn : ChimeConnection), cxn.msg_queue ≠ [] →
      (∀ c ∈ cmsgs, c.cb ≠ some .renew_cb ∧ c.msg.status_code = 401) →
      run_completions deps cxn cmsgs = { cxn with msg_queue := cxn.msg_queue ++ cmsgs } := by
  induction cmsgs with
  | nil => intro cxn _ _; simp [run_completions]
  | cons c rest ih =>
    intro cxn hq h
    have hc := h c (List.mem_cons_self c rest)
    have hrest : ∀ d ∈ rest, d.cb ≠ some .renew_cb ∧ d.msg.status_code = 401 :=
      fun d hd => h d (List.mem_cons_of_mem c hd)
    have hstep := soup_msg_cb_401_renewing deps cxn c hc.1 hc.2 hq
    have hrun : run_completions deps cxn (c :: rest)
        = run_completions deps (soup_msg_cb deps cxn c) rest := rfl
    rw [hrun, hstep, ih _ (by simp) hrest]
    simp

/-- A run of 401 completions on an idle channel: the first one issues the
renewal, all of them end in the queue. -/
theorem run_completions_401_idle (deps : Deps) (cxn : ChimeConnection) (first : chime_msg)
    (rest : List chime_msg) (hq : cxn.msg_queue = [])
    (h : ∀ c ∈ first :: rest, c.cb ≠ some .renew_cb ∧ c.msg.status_code = 401) :
    run_completions deps cxn (first :: rest) =
      { chime_renew_token deps { cxn with msg_queue := [first] } with
        msg_queue := first :: rest } := by
  have hc := h first (List.mem_cons_self first rest)
  have hrest : ∀ d ∈ rest, d.cb ≠ some .renew_cb ∧ d.msg.status_code = 401 :=
    fun d hd => h d (List.mem_cons_of_mem first hd)
  have hrun : run_completions deps cxn (first :: rest)
      = run_completions deps (soup_msg_cb deps cxn first) rest := rfl
  rw [hrun, soup_msg_cb_401_idle deps cxn first hc.1 hc.2 hq,
    run_completions_401_renewing deps rest _ (by simp [chime_renew_token_eq,
      ChimeConnection.emit]) hrest]
  simp [chime_renew_token_eq, ChimeConnection.emit]

/-- In every case a run of 401 completions leaves exactly its requests, in
arrival order, behind the requests already queued. -/
theorem run_completions_401_queue (deps : Deps) (cxn : ChimeConnection)
    (cmsgs : List chime_msg)
    (h : ∀ c ∈ cmsgs, c.cb ≠ some .renew_cb ∧ c.msg.status_code = 401) :
    (run_completions deps cxn cmsgs).msg_queue = cxn.msg_queue ++ cmsgs ∧
    (run_completions deps cxn cmsgs).session_token = cxn.session_token := by
  cases cmsgs with
  | nil => simp [run_completions]
  | cons first rest =>
    by_cases hq : cxn.msg_queue = []
    · rw [run_completions_401_idle deps cxn first rest hq h]
      simp [hq, chime_renew_token_eq, ChimeConnection.emit]
    · rw [run_completions_401_renewing deps (first :: rest) cxn hq h]
      simp

/-- The loop of `renew_cb` empties the queue when given enough iterations, and
resubmits the queued requests front to back. -/
theorem renew_cb_loop_spec (cookie_hdr : String) (fuel : Nat) :
    ∀ (self : ChimeConnection), self.msg_queue.length ≤ fuel →
      renew_cb_loop cookie_hdr fuel self =
        { self with
          msg_queue := []
          events := self.events ++
            self.msg_queue.map (fun c => ConnEvent.queue_message (c.replace_cookie cookie_hdr)) } := by
  induction fuel with
  | zero =>
    intro self h
    have hq : self.msg_queue = [] := List.length_eq_zero.mp (Nat.le_zero.mp h)
    cases self
    simp_all [renew_cb_loop]
  | succ n ih =>
    intro self h
    rcases hq : self.msg_queue with _ | ⟨c, rest⟩
    · cases self
      simp_all [renew_cb_loop, g_list_first]
    · have hlen : rest.length ≤ n := by
        rw [hq] at h
        simpa using h
      have herase : self.msg_queue.erase c = rest := by rw [hq, List.erase_cons_head]
      simp only [renew_cb_loop, hq, g_list_first, g_list_remove, ChimeConnection.emit, herase]
      rw [ih _ (by simpa using hlen)]
      simp [hq]

/-- A renewal response carrying a token: the token is stored and every queued
request is resubmitted with the new cookie. -/
theorem renew_cb_success (self : ChimeConnection) (msg : SoupMessage) (node : JsonNode)
    (t : String) (ht : parse_string (some node) "SessionToken" = some t) :
    renew_cb self msg (some node) =
      { self with
        session_token := some t
        msg_queue := []
        events := self.events ++
          (if self.session_token = some t then [] else [ConnEvent.notify "session-token"]) ++
          self.msg_queue.map (fun c =>
            ConnEvent.queue_message (c.replace_cookie ("_aws_wt_session=" ++ t))) } := by
  simp only [renew_cb, ht]
  rw [renew_cb_loop_spec _ _ _ (le_refl _)]
  simp [store_session_token_eq, cookie_header]

/-- A renewal response without a usable token: only the error is reported. -/
theorem renew_cb_failure (self : ChimeConnection) (msg : SoupMessage) (node : Option JsonNode)
    (h : node = none ∨ parse_string node "SessionToken" = none) :
    renew_cb self msg node =
      self.emit (.error_reason "Failed to renew session token") := by
  rcases h with h | h
  · subst h
    rfl
  · cases node with
    | none => rfl
    | some n => simp [renew_cb, h]

theorem queued_requests_append (xs ys : List ConnEvent) :
    queued_requests (xs ++ ys) = queued_requests xs ++ queued_requests ys := by
  induction xs with
  | nil => rfl
  | cons e rest ih => cases e <;> simp [queued_requests, ih]

theorem queued_requests_map (cs : List chime_msg) (f : chime_msg → chime_msg) :
    queued_requests (cs.map (fun c => ConnEvent.queue_message (f c))) = cs.map f := by
  induction cs with
  | nil => rfl
  | cons c rest ih => simp [queued_requests, ih]

theorem token_notifications_append (xs ys : List ConnEvent) :
    token_notifications (xs ++ ys) = token_notifications xs + token_notifications ys := by
  induction xs with
  | nil => simp [token_notifications]
  | cons e rest ih => cases e <;> simp [token_notifications, ih, Nat.add_assoc]

theorem token_notifications_map_queue (cs : List chime_msg) (f : chime_msg → chime_msg) :
    token_notifications (cs.map (fun c => ConnEvent.queue_message (f c))) = 0 := by
  induction cs with
  | nil => rfl
  | cons c rest ih => simp [token_notifications, ih]

/-- After a replacement the message carries the new header and no other
header of that name. -/
theorem soup_message_headers_replace_filter (hdrs : List (String × String))
    (name value : String) :
    (soup_message_headers_replace hdrs name value).filter (fun h => header_name_eq h.1 name)
      = [(name, value)] := by
  simp [soup_message_headers_replace, soup_message_headers_append, List.filter_append,
    List.filter_filter, header_name_eq]

/-! ## C2: one renewal per wave of 401 responses -/

/-- C2: from an empty pending queue, when the completions `first :: rest` of
non-renewal requests all carry status 401 and are processed before the renewal
response, the first completion issues one renewal request (a request whose
handler is `renew_cb`), the whole run adds nothing else to the log (no second
renewal, no response handler called), and the pending queue holds all the
requests. -/
theorem C2_single_renewal_for_401_wave (deps : Deps) (cxn : ChimeConnection)
    (first : chime_msg) (rest : List chime_msg) (hq : cxn.msg_queue = [])
    (h : ∀ c ∈ first :: rest, c.cb ≠ some .renew_cb ∧ c.msg.status_code = 401) :
    (new_chime_msg deps cxn
        (some (JsonNode.object [("Token", json_string_value cxn.session_token)]))
        (SoupURI.printf cxn.profile_url "/tokens" (query_from_fields "Token" cxn.session_token))
        "POST" (some .renew_cb) 0).cb = some .renew_cb ∧
    (soup_msg_cb deps cxn first).events = cxn.events ++
      [.queue_message (new_chime_msg deps cxn
        (some (JsonNode.object [("Token", json_string_value cxn.session_token)]))
        (SoupURI.printf cxn.profile_url "/tokens" (query_from_fields "Token" cxn.session_token))
        "POST" (some .renew_cb) 0)] ∧
    (run_completions deps cxn (first :: rest)).events = (soup_msg_cb deps cxn first).events ∧
    ((queued_requests (run_completions deps cxn (first :: rest)).events).filter
        (fun c => c.cb = some .renew_cb)).length
      = ((queued_requests cxn.events).filter (fun c => c.cb = some .renew_cb)).length + 1 ∧
    (run_completions deps cxn (first :: rest)).msg_queue = first :: rest := by
  have hc := h first (List.mem_cons_self first rest)
  rw [run_completions_401_idle deps cxn first rest hq h,
    soup_msg_cb_401_idle deps cxn first hc.1 hc.2 hq]
  simp [chime_renew_token_eq, ChimeConnection.emit, new_chime_msg, queued_requests_append,
    queued_requests]

/-- C2 at two requests whose 401 responses arrive on the idle connection
`cxn_idle`. -/
theorem C2_single_renewal_for_401_wave_witness :
    (run_completions test_deps cxn_idle [cmsg_b_401, cmsg_a_401]).events
      = (soup_msg_cb test_deps cxn_idle cmsg_b_401).events ∧
    (run_completions test_deps cxn_idle [cmsg_b_401, cmsg_a_401]).msg_queue
      = [cmsg_b_401, cmsg_a_401] :=
  have h := C2_single_renewal_for_401_wave test_deps cxn_idle cmsg_b_401 [cmsg_a_401] rfl
    (by decide)
  ⟨h.2.2.1, h.2.2.2.2⟩

/-! ## C3: replay after a successful renewal -/

/-- C3 (as stated, refuted): request A is submitted before request B, the 401
of B is processed before the 401 of A, and the renewal then replays B before A:
the replay order is the order of the 401 completions, not the order of
submission. -/
theorem C3_replay_not_in_submission_order :
    (queued_requests cxn_two_submitted.events).map
        (fun c => ({ c with msg := { c.msg with status_code := 401 } } : chime_msg))
      = [cmsg_a_401, cmsg_b_401] ∧
    queued_requests
        ((renew_cb cxn_two_waiting renewal_msg (some renewal_node_new)).events.drop
          cxn_two_waiting.events.length)
      = [cmsg_b_401.replace_cookie "_aws_wt_session=new",
         cmsg_a_401.replace_cookie "_aws_wt_session=new"] ∧
    [cmsg_b_401.replace_cookie "_aws_wt_session=new",
     cmsg_a_401.replace_cookie "_aws_wt_session=new"]
      ≠ [cmsg_a_401.replace_cookie "_aws_wt_session=new",
         cmsg_b_401.replace_cookie "_aws_wt_session=new"] := by
  decide

/-- C3 (amended): from an empty pending queue, when the 401 completions `cmsgs`
of non-renewal requests are processed in that order before the renewal
completes and the renewal response carries the SessionToken `t`, `renew_cb`
stores `t`, resubmits every one of them exactly once in the order their 401
completions were processed, each with exactly one Cookie header, whose value is
`_aws_wt_session=t`, and leaves the pending queue empty. -/
theorem C3_replay_in_completion_order (deps : Deps) (cxn : ChimeConnection)
    (cmsgs : List chime_msg) (msg : SoupMessage) (node : JsonNode) (t : String)
    (hq : cxn.msg_queue = [])
    (h : ∀ c ∈ cmsgs, c.cb ≠ some .renew_cb ∧ c.msg.status_code = 401)
    (ht : parse_string (some node) "SessionToken" = some t) :
    (renew_cb (run_completions deps cxn cmsgs) msg (some node)).msg_queue = [] ∧
    (renew_cb (run_completions deps cxn cmsgs) msg (some node)).session_token = some t ∧
    queued_requests
        ((renew_cb (run_completions deps cxn cmsgs) msg (some node)).events.drop
          (run_completions deps cxn cmsgs).events.length)
      = cmsgs.map (fun c => c.replace_cookie ("_aws_wt_session=" ++ t)) ∧
    (∀ c ∈ cmsgs,
      (c.replace_cookie ("_aws_wt_session=" ++ t)).cb = c.cb ∧
      (c.replace_cookie ("_aws_wt_session=" ++ t)).msg.method = c.msg.method ∧
      (c.replace_cookie ("_aws_wt_session=" ++ t)).msg.uri = c.msg.uri ∧
      (c.replace_cookie ("_aws_wt_session=" ++ t)).msg.request_body = c.msg.request_body ∧
      (c.replace_cookie ("_aws_wt_session=" ++ t)).msg.request_headers.filter
          (fun hd => header_name_eq hd.1 "Cookie")
        = [("Cookie", "_aws_wt_session=" ++ t)]) := by
  have hrun := run_completions_401_queue deps cxn cmsgs h
  rw [hq, List.nil_append] at hrun
  rw [renew_cb_success _ msg node t ht]
  refine ⟨rfl, rfl, ?_, ?_⟩
  · simp only [List.append_assoc, List.drop_left, queued_requests_append, hrun.1,
      queued_requests_map]
    split <;> simp [queued_requests]
  · intro c _
    exact ⟨rfl, rfl, rfl, rfl, soup_message_headers_replace_filter _ _ _⟩

/-- C3 (amended) at the run in which the 401 of B precedes the 401 of A. -/
theorem C3_replay_in_completion_order_witness :
    (renew_cb (run_completions test_deps cxn_idle [cmsg_b_401, cmsg_a_401]) renewal_msg
        (some renewal_node_new)).msg_queue = [] ∧
    queued_requests
        ((renew_cb (run_completions test_deps cxn_idle [cmsg_b_401, cmsg_a_401]) renewal_msg
            (some renewal_node_new)).events.drop
          (run_completions test_deps cxn_idle [cmsg_b_401, cmsg_a_401]).events.length)
      = [cmsg_b_401, cmsg_a_401].map (fun c => c.replace_cookie ("_aws_wt_session=" ++ "new")) :=
  have h := C3_replay_in_completion_order test_deps cxn_idle [cmsg_b_401, cmsg_a_401]
    renewal_msg renewal_node_new "new" rfl (by decide) (by decide)
  ⟨h.1, h.2.2.1⟩

/-! ## C4: a failed renewal -/

/-- C4 (as stated, refuted): with two requests pending, a renewal response
without a JSON body leaves both of them in the pending queue. -/
theorem C4_failed_renewal_keeps_queue :
    cxn_two_waiting.msg_queue = [cmsg_b_401, cmsg_a_401] ∧
    (renew_cb cxn_two_waiting renewal_msg none).msg_queue = [cmsg_b_401, cmsg_a_401] ∧
    (renew_cb cxn_two_waiting renewal_msg none).msg_queue ≠ [] := by
  decide

/-- C4 (amended): for every connection state with a non-empty pending queue,
when the renewal response has no parsed JSON body or lacks the SessionToken
field, `renew_cb` reports the fatal error to the connection and does nothing
else: no queued request is resubmitted, the session token is unchanged, and the
pending queue is left as it was (the requests stay in it). -/
theorem C4_failed_renewal (self : ChimeConnection) (msg : SoupMessage)
    (node : Option JsonNode) (hq : self.msg_queue ≠ [])
    (h : node = none ∨ parse_string node "SessionToken" = none) :
    (renew_cb self msg node).events
      = self.events ++ [.error_reason "Failed to renew session token"] ∧
    queued_requests (renew_cb self msg node).events = queued_requests self.events ∧
    (renew_cb self msg node).session_token = self.session_token ∧
    (renew_cb self msg node).msg_queue = self.msg_queue ∧
    (renew_cb self msg node).msg_queue ≠ [] := by
  rw [renew_cb_failure self msg node h]
  simp [ChimeConnection.emit, queued_requests_append, queued_requests, hq]

/-- C4 (amended) at a renewal response whose JSON body is an empty object. -/
theorem C4_failed_renewal_witness :
    (renew_cb cxn_two_waiting renewal_msg (some (.object []))).events
      = cxn_two_waiting.events ++ [.error_reason "Failed to renew session token"] ∧
    (renew_cb cxn_two_waiting renewal_msg (some (.object []))).msg_queue
      = cxn_two_waiting.msg_queue :=
  have h := C4_failed_renewal cxn_two_waiting renewal_msg (some (.object [])) (by decide)
    (Or.inr rfl)
  ⟨h.1, h.2.2.2.1⟩

/-! ## C5: token updates and their notification -/

theorem token_notifications_reg_events (doc : Option JsonNode) (prior : Option String)
    (t : String) (ht : reg_string doc (["Session"], "SessionToken") = some t) :
    token_notifications (reg_events doc prior) = if prior = some t then 0 else 1 := by
  have hp : reg_present doc 1 = true := by
    simp [reg_present, reg_required, ht]
  have hdn : ∀ (c : Prop) [Decidable c] (name : String),
      token_notifications (if c then [ConnEvent.set_display_name name] else []) = 0 := by
    intro c _ name
    split <;> rfl
  rw [reg_events, token_notifications_append, hdn, hp, ht]
  by_cases hsame : prior = some t
  · simp [hsame, token_notifications]
  · simp [hsame, token_notifications]

/-- One delivery of a token: the store and the log afterwards. -/
theorem deliver_token (self : ChimeConnection) (d : TokenDelivery) (t : String)
    (ht : d.token = some t) :
    (deliver self d).session_token = some t ∧
    token_notifications (deliver self d).events
      = token_notifications self.events + (if self.session_token = some t then 0 else 1) := by
  cases d with
  | renewal msg node =>
    simp only [TokenDelivery.token] at ht
    simp only [deliver]
    rw [renew_cb_success self msg node t ht]
    refine ⟨rfl, ?_⟩
    simp only [token_notifications_append, token_notifications_map_queue]
    split <;> simp [token_notifications]
  | registration doc =>
    simp only [TokenDelivery.token] at ht
    simp only [deliver]
    obtain ⟨-, h1, -, -, -, -, -, -, -, -, -, -, -, -, -, -, -, hev⟩ :=
      parse_regnode_spec { self with reg_node := some doc } (some doc)
    have hp : reg_present (some doc) 1 = true := by
      simp [reg_present, reg_required, ht]
    refine ⟨?_, ?_⟩
    · rw [h1]
      simp [reg_written, hp, ht]
    · rw [hev, token_notifications_append, token_notifications_reg_events (some doc) _ t ht]

/-- A sequence of deliveries: the token held at the end and the number of
notifications. -/
theorem deliver_all_tokens (ds : List TokenDelivery) :
    ∀ (self : ChimeConnection) (ts : List String), ds.map TokenDelivery.token = ts.map some →
      (ds.foldl deliver self).session_token = last_token self.session_token ts ∧
      token_notifications (ds.foldl deliver self).events
        = token_notifications self.events + token_changes self.session_token ts := by
  induction ds with
  | nil =>
    intro self ts h
    cases ts with
    | nil => simp [last_token, token_changes]
    | cons t rest => simp at h
  | cons d rest ih =>
    intro self ts h
    cases ts with
    | nil => simp at h
    | cons t ts =>
      simp only [List.map_cons, List.cons.injEq] at h
      obtain ⟨h1, h2⟩ := deliver_token self d t h.1
      obtain ⟨h3, h4⟩ := ih (deliver self d) ts h.2
      simp only [List.foldl_cons, last_token, token_changes]
      rw [h3, h4, h1, h2]
      exact ⟨rfl, by omega⟩

/-- C5: for every current token (absent included) and every token `t` delivered
by a successful renewal response (`renew_cb`) or a registration response
(`parse_regnode`), the stored token afterwards is `t` and the number of
session-token notifications grows by one if `t` differs from the token held
before and by zero if it is the same; delivering the same token again adds no
notification; and over any sequence of deliveries the notifications added are
exactly the positions at which the token value changes. -/
theorem C5_token_update_notifies_iff_changed (self : ChimeConnection) (d d2 : TokenDelivery)
    (t : String) (ds : List TokenDelivery) (ts : List String)
    (ht : d.token = some t) (ht2 : d2.token = some t)
    (hts : ds.map TokenDelivery.token = ts.map some) :
    (deliver self d).session_token = some t ∧
    token_notifications (deliver self d).events
      = token_notifications self.events + (if self.session_token = some t then 0 else 1) ∧
    token_notifications (deliver (deliver self d) d2).events
      = token_notifications (deliver self d).events ∧
    (ds.foldl deliver self).session_token = last_token self.session_token ts ∧
    token_notifications (ds.foldl deliver self).events
      = token_notifications self.events + token_changes self.session_token ts := by
  obtain ⟨h1, h2⟩ := deliver_token self d t ht
  obtain ⟨-, h3⟩ := deliver_token (deliver self d) d2 t ht2
  obtain ⟨h4, h5⟩ := deliver_all_tokens ds self ts hts
  refine ⟨h1, h2, ?_, h4, h5⟩
  rw [h3, h1]
  simp

/-- C5 on the connection `cxn_idle`, which holds `old`: a renewal delivering
`new`, then a registration delivering `new` again. -/
theorem C5_token_update_notifies_iff_changed_witness :
    (deliver cxn_idle (.renewal renewal_msg renewal_node_new)).session_token = some "new" ∧
    token_notifications (deliver cxn_idle (.renewal renewal_msg renewal_node_new)).events
      = token_notifications cxn_idle.events + (if cxn_idle.session_token = some "new" then 0 else 1) ∧
    token_notifications
        (deliver (deliver cxn_idle (.renewal renewal_msg renewal_node_new))
          (.registration doc_token_only)).events
      = token_notifications (deliver cxn_idle (.renewal renewal_msg renewal_node_new)).events :=
  have h := C5_token_update_notifies_iff_changed cxn_idle
    (.renewal renewal_msg renewal_node_new) (.registration doc_token_only) "new"
    [.renewal renewal_msg renewal_node_new, .registration doc_token_only] ["new", "new"]
    (by decide) (by decide) (by decide)
  ⟨h.1, h.2.1, h.2.2.1⟩

/-! ## The document query facade -/

theorem lookup_cons_eq {β : Type} (k k1 : String) (v : β) (rest : List (String × β)) :
    List.lookup k ((k1, v) :: rest) = if k = k1 then some v else List.lookup k rest := by
  by_cases h : k = k1
  · subst h
    simp [List.lookup]
  · have hb : (k == k1) = false := by simpa using h
    simp [List.lookup, hb, h]

theorem g_hash_table_insert_lookup (table : GHashTable) (key : String) (value : Option String)
    (k : String) :
    (g_hash_table_insert table key value).lookup k
      = if k = key then some value else table.lookup k := by
  induction table with
  | nil => simp [g_hash_table_insert, lookup_cons_eq]
  | cons e rest ih =>
    obtain ⟨k1, v1⟩ := e
    by_cases h1 : k1 = key
    · subst h1
      by_cases h : k = k1 <;> simp [g_hash_table_insert, lookup_cons_eq, h]
    · by_cases h : k = k1
      · have h2 : ¬ k = key := fun hk => h1 (h.symm.trans hk)
        simp [g_hash_table_insert, lookup_cons_eq, h1, h, h2]
      · simp [g_hash_table_insert, lookup_cons_eq, h1, h, ih]

/-- The table after the member loop has run over a list of names. -/
theorem member_loop_lookup (object : JsonObject) (names : List String) :
    ∀ (table : GHashTable) (k : String),
      (names.foldl
          (fun result member =>
            match json_object_get_member (some object) member with
            | some node =>
              if JSON_NODE_HOLDS_VALUE node then
                g_hash_table_insert result member (json_node_get_string node)
              else result
            | none => result)
          table).lookup k
        = if k ∈ names then
            (match object.lookup k with
              | some node =>
                if JSON_NODE_HOLDS_VALUE node then some (json_node_get_string node)
                else table.lookup k
              | none => table.lookup k)
          else table.lookup k := by
  induction names with
  | nil => intro table k; simp
  | cons name rest ih =>
    intro table k
    rw [List.foldl_cons, ih]
    by_cases hk : k = name
    · subst hk
      simp only [json_object_get_member, List.mem_cons, true_or, if_true]
      rcases hl : object.lookup k with _ | node
      · simp
      · by_cases hv : JSON_NODE_HOLDS_VALUE node = true
        · simp [hv, g_hash_table_insert_lookup]
        · simp [hv]
    · simp only [json_object_get_member, List.mem_cons, hk, false_or]
      rcases hl : object.lookup name with _ | node
      · simp
      · by_cases hv : JSON_NODE_HOLDS_VALUE node = true
        · simp [hv, g_hash_table_insert_lookup, hk]
        · simp [hv]

theorem lookup_none_of_not_mem_members (object : JsonObject) (k : String)
    (h : k ∉ json_object_get_members object) : object.lookup k = none := by
  induction object with
  | nil => rfl
  | cons e rest ih =>
    obtain ⟨k1, v1⟩ := e
    simp only [json_object_get_members, List.map_cons, List.mem_cons, not_or] at h
    rw [lookup_cons_eq, if_neg h.1]
    exact ih (by simpa [json_object_get_members] using h.2)

/-- A non-empty `application/json` body that parses to an object: the member
loop runs from the empty table. -/
theorem parse_json_object_eq (deps : Deps) (msg : SoupMessage) (data : String)
    (members : JsonObject)
    (hct : msg.response_content_type = some "application/json")
    (hbody : msg.response_body = some data) (hlen : 0 < body_length data)
    (hparse : deps.json_parser_load_from_data data = some (some (.object members))) :
    chime_login_parse_json_object deps msg
      = some ((json_object_get_members members).foldl
          (fun result member =>
            match json_object_get_member (some members) member with
            | some node =>
              if JSON_NODE_HOLDS_VALUE node then
                g_hash_table_insert result member (json_node_get_string node)
              else result
            | none => result)
          []) := by
  have hlen2 : ¬ body_length data = 0 := by omega
  simp only [chime_login_parse_json_object, hct, hbody, hparse, JSON_NODE_HOLDS_OBJECT,
    json_node_get_object]
  simp [hlen2]

/-- A non-empty `application/json` body that parses to an object yields the
table of its value members. -/
theorem parse_json_object_of_object (deps : Deps) (msg : SoupMessage) (data : String)
    (members : JsonObject)
    (hct : msg.response_content_type = some "application/json")
    (hbody : msg.response_body = some data) (hlen : 0 < body_length data)
    (hparse : deps.json_parser_load_from_data data = some (some (.object members))) :
    ∃ table, chime_login_parse_json_object deps msg = some table ∧
      ∀ k, table.lookup k
        = (match members.lookup k with
          | some (.string s) => some (some s)
          | some (.int _) => some none
          | some (.double _) => some none
          | some (.boolean _) => some none
          | _ => none) := by
  refine ⟨_, parse_json_object_eq deps msg data members hct hbody hlen hparse, ?_⟩
  intro k
  rw [member_loop_lookup]
  by_cases hmem : k ∈ json_object_get_members members
  · simp only [hmem, if_true, List.lookup]
    rcases hl : members.lookup k with _ | node
    · rfl
    · cases node <;> simp [JSON_NODE_HOLDS_VALUE, json_node_get_string]
  · simp only [hmem, if_false, List.lookup, lookup_none_of_not_mem_members members k hmem]
/-! ## C6: the map extracted from a JSON object -/

/-- C6 (as stated, refuted): the body `\x7b"n":1\x7d` is a JSON object whose member
`n` is a scalar, and the returned map holds the key `n` with a `NULL` value, not
with a string: looking it up yields nothing. -/
theorem C6_number_member_has_no_string :
    login_deps.json_parser_load_from_data body_number
      = some (some (.object [("n", .int 1)])) ∧
    chime_login_parse_json_object login_deps (response 200 "application/json" body_number)
      = some [("n", none)] ∧
    g_hash_table_lookup [("n", none)] "n" = none :=
  ⟨rfl, by decide, by decide⟩

/-- C6 (amended): for every response whose content-type is exactly
application/json and whose non-empty body parses to a JSON object,
`chime_login_parse_json_object` returns a map whose keys are exactly the
top-level members holding a string, a number or a boolean; a string member is
mapped to its string, a number or boolean member is present with a `NULL`
value, and members holding null, an object or an array are omitted. The body
`\x7b"provider":"amazon","path":"/p","extra":\x7b"a":1\x7d\x7d` yields exactly the two entries
provider = amazon and path = /p. -/
theorem C6_parse_json_object_members (deps : Deps) (msg : SoupMessage) (data : String)
    (members : JsonObject)
    (hct : msg.response_content_type = some "application/json")
    (hbody : msg.response_body = some data) (hlen : 0 < body_length data)
    (hparse : deps.json_parser_load_from_data data = some (some (.object members))) :
    (∃ table, chime_login_parse_json_object deps msg = some table ∧
      ∀ k, table.lookup k
        = (match members.lookup k with
          | some (.string s) => some (some s)
          | some (.int _) => some none
          | some (.double _) => some none
          | some (.boolean _) => some none
          | _ => none)) ∧
    (members = members_provider →
      chime_login_parse_json_object deps msg
        = some [("provider", some "amazon"), ("path", some "/p")]) := by
  refine ⟨parse_json_object_of_object deps msg data members hct hbody hlen hparse, ?_⟩
  intro hm
  subst hm
  rw [parse_json_object_eq deps msg data members_provider hct hbody hlen hparse]
  decide

/-- C6 (amended) at the provider-routing body of the spec. -/
theorem C6_parse_json_object_members_witness :
    chime_login_parse_json_object login_deps (response 200 "application/json" body_provider)
      = some [("provider", some "amazon"), ("path", some "/p")] :=
  (C6_parse_json_object_members login_deps (response 200 "application/json" body_provider)
    body_provider members_provider rfl rfl (by decide) rfl).2 rfl

/-! ## C7: when no map is returned -/

/-- C7: `chime_login_parse_json_object` returns `NULL` exactly when the response
content-type is not application/json, or the body is absent or empty, or the
body fails to parse, or the parsed root is not an object; in every other case it
returns a map. -/
theorem C7_parse_json_object_null_iff (deps : Deps) (msg : SoupMessage) :
    chime_login_parse_json_object deps msg = none ↔
      (msg.response_content_type ≠ some "application/json" ∨
       msg.response_body = none ∨
       (∃ data, msg.response_body = some data ∧ body_length data = 0) ∨
       (∃ data, msg.response_body = some data ∧ deps.json_parser_load_from_data data = none) ∨
       (∃ data root, msg.response_body = some data ∧
          deps.json_parser_load_from_data data = some root ∧
          JSON_NODE_HOLDS_OBJECT root = false)) := by
  rcases hbody : msg.response_body with _ | data
  · simp [chime_login_parse_json_object, hbody]
  · by_cases hct : msg.response_content_type = some "application/json"
    · by_cases hlen : body_length data = 0
      · simp [chime_login_parse_json_object, hbody, hct, hlen]
      · rcases hparse : deps.json_parser_load_from_data data with _ | root
        · simp [chime_login_parse_json_object, hbody, hct, hlen, hparse]
        · rcases root with _ | node
          · simp [chime_login_parse_json_object, hbody, hct, hlen, hparse,
              JSON_NODE_HOLDS_OBJECT]
          · cases node <;>
              simp [chime_login_parse_json_object, hbody, hct, hlen, hparse,
                JSON_NODE_HOLDS_OBJECT, json_node_get_object]
    · simp [chime_login_parse_json_object, hbody, hct]

/-! ## C8: the method of a form -/

/-- C8 (the code at the failing input): for a page whose form
`picker_email` has no `method` attribute, `chime_login_parse_form` returns the
empty string as method, not `GET`; for the same form with `method="post"` it
returns `POST`. -/
theorem C8_method_without_attribute_is_empty :
    xpath_exists (doc_with_form form_no_method) (.path SEARCH_FORM) = true ∧
    xmlHasProp form_no_method "method" = none ∧
    (chime_login_parse_form login_deps (response 200 "text/html" "form_no_method")
      SEARCH_FORM true false).method = some "" ∧
    (chime_login_parse_form login_deps (response 200 "text/html" "form_no_method")
      SEARCH_FORM true false).method ≠ some "GET" ∧
    (chime_login_parse_form login_deps (response 200 "text/html" "form_post")
      SEARCH_FORM true false).method = some "POST" := by
  decide

/-! ## C9: the provider-routing response -/

/-- C9 (as stated, refuted): a response with status 500 whose body is the
JSON object with provider `amazon` and path `/p` is not a 400, its JSON object
can be extracted with both entries, and yet no GET is issued: the flow fails
with `REQUEST_FAILED`. -/
theorem C9_server_error_is_request_failed :
    (response 500 "application/json" body_provider).status_code ≠ 400 ∧
    chime_login_parse_json_object login_deps (response 500 "application/json" body_provider)
      = some [("provider", some "amazon"), ("path", some "/p")] ∧
    reported_errors
        (signin_search_result_cb login_deps login_state
          (response 500 "application/json" body_provider))
      = [.REQUEST_FAILED] ∧
    submitted_requests
        (signin_search_result_cb login_deps login_state
          (response 500 "application/json" body_provider))
      = [] := by
  decide

/-- C9 (amended): for every provider-routing response handled by
`signin_search_result_cb`: if the status is 400 the flow fails with
`BAD_RESPONSE` (invalid e-mail); otherwise, if `chime_login_fail_on_error` fires
on the status, the flow fails with `REQUEST_FAILED`; otherwise, if no JSON object
can be extracted, or the `provider` entry is absent or is neither `amazon` nor
`wd`, or the `path` entry is absent, the flow fails with `BAD_RESPONSE`; in all
these cases no request is issued. Otherwise exactly one GET is issued, to `path`
resolved against the URL of the response, with the amazon handler for `amazon`
and the warpdrive handler for `wd`, and no failure is reported. -/
theorem C9_provider_routing (deps : Deps) (state : ChimeLogin) (msg : SoupMessage) :
    (msg.status_code = 400 →
      signin_search_result_cb deps state msg
        = chime_login_bad_response state
            ("Invalid e-mail address <" ++ state.account_email ++ ">") ∧
      reported_errors (signin_search_result_cb deps state msg) = [.BAD_RESPONSE] ∧
      submitted_requests (signin_search_result_cb deps state msg) = []) ∧
    (msg.status_code ≠ 400 → chime_login_fail_on_error msg = true →
      reported_errors (signin_search_result_cb deps state msg) = [.REQUEST_FAILED] ∧
      submitted_requests (signin_search_result_cb deps state msg) = []) ∧
    (msg.status_code ≠ 400 → chime_login_fail_on_error msg = false →
      (chime_login_parse_json_object deps msg = none ∨
        ∃ info, chime_login_parse_json_object deps msg = some info ∧
          ((g_hash_table_lookup info "provider" ≠ some "amazon" ∧
              g_hash_table_lookup info "provider" ≠ some "wd") ∨
            g_hash_table_lookup info "path" = none)) →
      reported_errors (signin_search_result_cb deps state msg) = [.BAD_RESPONSE] ∧
      submitted_requests (signin_search_result_cb deps state msg) = []) ∧
    (∀ info path, msg.status_code ≠ 400 → chime_login_fail_on_error msg = false →
      chime_login_parse_json_object deps msg = some info →
      g_hash_table_lookup info "path" = some path →
      (g_hash_table_lookup info "provider" = some "amazon" →
        signin_search_result_cb deps state msg
          = [.queue_message (.get (.with_base msg.uri path)) .chime_login_amazon]) ∧
      (g_hash_table_lookup info "provider" = some "wd" →
        signin_search_result_cb deps state msg
          = [.queue_message (.get (.with_base msg.uri path)) .chime_login_warpdrive])) := by
  refine ⟨?_, ?_, ?_, ?_⟩
  · intro h400
    simp [signin_search_result_cb, h400, chime_login_bad_response, fail, reported_errors,
      submitted_requests]
  · intro h400 hfire
    simp [signin_search_result_cb, h400, hfire, chime_login_request_failed, fail,
      reported_errors, submitted_requests]
  · intro h400 hfire hbad
    rcases hbad with hnone | ⟨info, hinfo, hbad⟩
    · simp [signin_search_result_cb, h400, hfire, hnone, chime_login_bad_response, fail,
        reported_errors, submitted_requests]
    · rcases hbad with ⟨ha, hw⟩ | hpath
      · simp [signin_search_result_cb, h400, hfire, hinfo, ha, hw, chime_login_bad_response,
          fail, reported_errors, submitted_requests]
      · by_cases ha : g_hash_table_lookup info "provider" = some "amazon"
        · simp [signin_search_result_cb, h400, hfire, hinfo, ha, hpath,
            chime_login_bad_response, fail, reported_errors, submitted_requests]
        · by_cases hw : g_hash_table_lookup info "provider" = some "wd"
          · simp [signin_search_result_cb, h400, hfire, hinfo, hw, hpath,
              chime_login_bad_response, fail, reported_errors, submitted_requests]
          · simp [signin_search_result_cb, h400, hfire, hinfo, ha, hw,
              chime_login_bad_response, fail, reported_errors, submitted_requests]
  · intro info path h400 hfire hinfo hpath
    refine ⟨?_, ?_⟩
    · intro ha
      simp [signin_search_result_cb, h400, hfire, hinfo, ha, hpath]
    · intro hw
      simp [signin_search_result_cb, h400, hfire, hinfo, hw, hpath]

/-- C9 (amended) at the status-200 response carrying the provider-routing body
of the spec: one GET of `/p`, resolved against the response URL, goes to the
amazon handler. -/
theorem C9_provider_routing_witness :
    signin_search_result_cb login_deps login_state
        (response 200 "application/json" body_provider)
      = [.queue_message (.get (.with_base (.parsed "https://h/y") "/p")) .chime_login_amazon] :=
  ((C9_provider_routing login_deps login_state
      (response 200 "application/json" body_provider)).2.2.2
    [("provider", some "amazon"), ("path", some "/p")] "/p"
    (by decide) (by decide) (by decide) (by decide)).1 (by decide)

/-! ## C10: the sign-in page -/

/-- C10 (the code at the failing input): the sign-in page holds the form
`picker_email` with a hidden field `csrf` and no input of type email; the
response is successful, the form is found, and `signin_page_cb` reports no
failure and submits the form with the account stored under the empty field
name. -/
theorem C10_form_without_email_is_submitted :
    chime_login_fail_on_error (response 200 "text/html" "form_no_email") = false ∧
    (form_no_email.descendants.filter (is_input_of_type "email")) = [] ∧
    (chime_login_parse_form login_deps (response 200 "text/html" "form_no_email")
      SEARCH_FORM true false).email_name = some "" ∧
    signin_page_cb login_deps login_state (response 200 "text/html" "form_no_email")
      = [.queue_message
          (.form_request (some "POST") (some (.with_base (.parsed "https://h/y") "/x"))
            [("csrf", some "1"), ("", some "u@x.com")])
          .signin_search_result_cb] ∧
    reported_errors
        (signin_page_cb login_deps login_state (response 200 "text/html" "form_no_email"))
      = [] :=
  ⟨by decide, rfl, by decide, by decide, by decide⟩

/-! ## The token carrier pattern -/

theorem body_length_pos (data : String) (h : data.data ≠ []) : 0 < body_length data := by
  obtain ⟨cs⟩ := data
  cases cs with
  | nil => exact absurd rfl h
  | cons c cs =>
    have hc := Char.utf8Size_pos c
    simp only [body_length, String.utf8ByteSize, String.utf8ByteSize.go]
    omega

theorem drop_literal_append (literal rest : List Char) :
    drop_literal literal (literal ++ rest) = some rest := by
  induction literal with
  | nil => cases rest <;> rfl
  | cons l literal ih => simp [drop_literal, ih]

theorem drop_literal_some (literal : List Char) :
    ∀ (text rest : List Char), drop_literal literal text = some rest → text = literal ++ rest := by
  induction literal with
  | nil =>
    intro text rest h
    cases text <;> simp_all [drop_literal]
  | cons l literal ih =>
    intro text rest h
    cases text with
    | nil => simp [drop_literal] at h
    | cons c text =>
      by_cases hlc : l = c
      · subst hlc
        simp only [drop_literal, if_true] at h
        rw [ih text rest h]
        rfl
      · simp [drop_literal, hlc] at h

/-- An occurrence of the carrier at the head of the text is matched there, with
the value as capture. -/
theorem match_token_here_occurrence (q q2 : Char) (value post : List Char)
    (hq : is_quote q = true) (hq2 : is_quote q2 = true) (hne : value ≠ [])
    (hval : ∀ c ∈ value, is_quote c = false) :
    match_token_here (q :: (token_carrier ++ (value ++ q2 :: post))) = some value := by
  have hpos : ∀ c ∈ value, (fun c => !is_quote c) c = true := by
    intro c hc
    simp [hval c hc]
  have htake : (value ++ q2 :: post).takeWhile (fun c => !is_quote c) = value := by
    rw [List.takeWhile_append_of_pos hpos]
    simp [List.takeWhile_cons, hq2]
  have hdrop : (value ++ q2 :: post).dropWhile (fun c => !is_quote c) = q2 :: post := by
    rw [List.dropWhile_append_of_pos hpos]
    simp [List.dropWhile_cons, hq2]
  simp [match_token_here, hq, drop_literal_append, htake, hdrop, hne]

/-- A match at the head of the text is an occurrence of the carrier. -/
theorem match_token_here_sound (text value : List Char)
    (h : match_token_here text = some value) :
    ∃ q q2 post, text = q :: (token_carrier ++ (value ++ q2 :: post)) ∧
      is_quote q = true ∧ is_quote q2 = true ∧ value ≠ [] ∧
      ∀ c ∈ value, is_quote c = false := by
  cases text with
  | nil => simp [match_token_here] at h
  | cons q rest =>
    by_cases hq : is_quote q = true
    · simp only [match_token_here, hq, if_true] at h
      rcases hd : drop_literal token_carrier rest with _ | after
      · simp [hd] at h
      · simp only [hd] at h
        by_cases hc : after.takeWhile (fun c => !is_quote c) ≠ [] ∧
            after.dropWhile (fun c => !is_quote c) ≠ []
        · rw [if_pos hc] at h
          have hv : after.takeWhile (fun c => !is_quote c) = value := Option.some.inj h
          rcases htail : after.dropWhile (fun c => !is_quote c) with _ | ⟨q2, post⟩
          · exact absurd htail hc.2
          · have hsplit := List.takeWhile_append_dropWhile (fun c => !is_quote c) after
            rw [hv, htail] at hsplit
            have hq2 : is_quote q2 = true := by
              have hhead := List.head_dropWhile_not (fun c => !is_quote c) after
                (by rw [htail]; simp)
              simp only [htail, List.head_cons] at hhead
              simpa using hhead
            refine ⟨q, q2, post, ?_, hq, hq2, ?_, ?_⟩
            · rw [drop_literal_some token_carrier rest after hd, ← hsplit]
            · rw [← hv]
              exact hc.1
            · intro c hcmem
              rw [← hv] at hcmem
              have := List.mem_takeWhile_imp hcmem
              simpa using this
        · rw [if_neg hc] at h
          exact absurd h (by simp)
    · simp [match_token_here, hq] at h

theorem match_token_here_not_quote (c : Char) (rest : List Char) (hc : is_quote c = false) :
    match_token_here (c :: rest) = none := by
  simp [match_token_here, hc]

/-- A stretch without quotes before the text holds no match. -/
theorem match_token_skip (pre : List Char) (rest : List Char)
    (hpre : ∀ c ∈ pre, is_quote c = false) :
    match_token (pre ++ rest) = match_token rest := by
  induction pre with
  | nil => rfl
  | cons c pre ih =>
    have hc : is_quote c = false := hpre c (List.mem_cons_self c pre)
    have hrest : ∀ d ∈ pre, is_quote d = false := fun d hd => hpre d (List.mem_cons_of_mem c hd)
    show match_token (c :: (pre ++ rest)) = match_token rest
    simp only [match_token, match_token_here_not_quote c _ hc]
    exact ih hrest

/-- A stretch before the text at no position of which a match starts holds no
match. -/
theorem match_token_skip_unmatched (pre : List Char) (rest : List Char)
    (hpre : ∀ pre1 rest1, pre = pre1 ++ rest1 → rest1 ≠ [] →
      match_token_here (rest1 ++ rest) = none) :
    match_token (pre ++ rest) = match_token rest := by
  induction pre with
  | nil => rfl
  | cons c pre ih =>
    have hhead : match_token_here (c :: (pre ++ rest)) = none :=
      hpre [] (c :: pre) rfl (by simp)
    have htail : ∀ pre1 rest1, pre = pre1 ++ rest1 → rest1 ≠ [] →
        match_token_here (rest1 ++ rest) = none := by
      intro pre1 rest1 heq hne
      exact hpre (c :: pre1) rest1 (by rw [heq]; rfl) hne
    show match_token (c :: (pre ++ rest)) = match_token rest
    simp only [match_token, hhead]
    exact ih htail

/-- A text that holds an occurrence of the carrier has a match. -/
theorem match_token_complete (pre : List Char) (q q2 : Char) (value post : List Char)
    (hq : is_quote q = true) (hq2 : is_quote q2 = true) (hne : value ≠ [])
    (hval : ∀ c ∈ value, is_quote c = false) :
    ∃ found, match_token (pre ++ q :: (token_carrier ++ (value ++ q2 :: post))) = some found := by
  induction pre with
  | nil =>
    refine ⟨value, ?_⟩
    simp only [List.nil_append, match_token,
      match_token_here_occurrence q q2 value post hq hq2 hne hval]
  | cons c pre ih =>
    obtain ⟨found, hfound⟩ := ih
    rcases hhere : match_token_here (c :: (pre ++ q :: (token_carrier ++ (value ++ q2 :: post))))
      with _ | v
    · refine ⟨found, ?_⟩
      show match_token (c :: (pre ++ q :: (token_carrier ++ (value ++ q2 :: post)))) = some found
      simp only [match_token, hhere, hfound]
    · refine ⟨v, ?_⟩
      show match_token (c :: (pre ++ q :: (token_carrier ++ (value ++ q2 :: post)))) = some v
      simp only [match_token, hhere]

/-- The capture of a match is the value of an occurrence of the carrier. -/
theorem match_token_sound (text : List Char) :
    ∀ value, match_token text = some value →
      ∃ pre q q2 post, text = pre ++ q :: (token_carrier ++ (value ++ q2 :: post)) ∧
        is_quote q = true ∧ is_quote q2 = true ∧ value ≠ [] ∧
        ∀ c ∈ value, is_quote c = false := by
  induction text with
  | nil => intro value h; simp [match_token] at h
  | cons c rest ih =>
    intro value h
    rcases hhere : match_token_here (c :: rest) with _ | v
    · simp only [match_token, hhere] at h
      obtain ⟨pre, q, q2, post, heq, hq, hq2, hne, hval⟩ := ih value h
      exact ⟨c :: pre, q, q2, post, by rw [heq]; rfl, hq, hq2, hne, hval⟩
    · simp only [match_token, hhere] at h
      have hv : v = value := Option.some.inj h
      subst hv
      obtain ⟨q, q2, post, heq, hq, hq2, hne, hval⟩ := match_token_here_sound _ _ hhere
      exact ⟨[], q, q2, post, heq, hq, hq2, hne, hval⟩

/-- The token handler on a response that passes the error check: the outcome
follows the match. -/
theorem chime_login_token_cb_of_match (state : ChimeLogin) (msg : SoupMessage) (data : String)
    (hok : chime_login_fail_on_error msg = false) (hbody : msg.response_body = some data)
    (hlen : 0 < body_length data) :
    chime_login_token_cb state msg =
      (match match_token data.data with
        | some value => [.set_session_token (String.mk value), .connection_connect, .free_state]
        | none =>
          .debug_error "Could not find session token in final login response" ::
            chime_login_bad_response state "Unable to retrieve session token") := by
  have hlen2 : ¬ body_length data = 0 := by omega
  rcases hm : match_token data.data with _ | value <;>
    simp [chime_login_token_cb, hok, chime_login_parse_regex, hbody, hlen2, g_regex_fetch, hm]
/-! ## C11: the token handler -/

/-- The trace of the token handler when no token is found. -/
theorem chime_login_token_cb_no_match (state : ChimeLogin) (msg : SoupMessage)
    (hok : chime_login_fail_on_error msg = false)
    (hnone : chime_login_parse_regex msg TOKEN_REGEX 1 = none) :
    reported_errors (chime_login_token_cb state msg) = [.BAD_RESPONSE] ∧
    committed_tokens (chime_login_token_cb state msg) = [] ∧
    submitted_requests (chime_login_token_cb state msg) = [] ∧
    release_count (chime_login_token_cb state msg) = 1 := by
  simp [chime_login_token_cb, hok, hnone, chime_login_bad_response, fail, reported_errors,
    committed_tokens, submitted_requests, release_count]

/-- C11 (as stated, refuted): the successful final response
`chime://sso_sessions?Token=ABC123"` holds the carrier text with the value
`ABC123` followed by a double quote, and the flow fails with `BAD_RESPONSE`
without committing a token, because no quote stands before `chime://`. -/
theorem C11_carrier_without_leading_quote_fails :
    chime_login_fail_on_error (response 200 "text/html" body_carrier_bare) = false ∧
    body_carrier_bare.data = token_carrier ++ ("ABC123".data ++ [Char.ofNat 34]) ∧
    reported_errors (chime_login_token_cb login_state (response 200 "text/html" body_carrier_bare))
      = [.BAD_RESPONSE] ∧
    committed_tokens (chime_login_token_cb login_state (response 200 "text/html" body_carrier_bare))
      = [] := by
  decide

/-- C11 (amended): for every successful final response, an occurrence of the
carrier is a single or double quote, the text `chime://sso_sessions?Token=`, a
non-empty value without quote characters, and a single or double quote. If the
body holds an occurrence, `chime_login_token_cb` commits one token, instructs
the connection to connect and releases the flow state, in that order; the token
is the value of the leftmost occurrence (the one before which no match starts,
as when no quote character stands before it); every token that is committed is
the value of an occurrence. If the body holds no
occurrence the flow fails with `BAD_RESPONSE`, releases the flow state once and
commits no token. -/
theorem C11_token_commit (state : ChimeLogin) (msg : SoupMessage)
    (hok : chime_login_fail_on_error msg = false) :
    (∀ data pre q value q2 post, msg.response_body = some data →
      data.data = pre ++ q :: (token_carrier ++ (value ++ q2 :: post)) →
      is_quote q = true → is_quote q2 = true → value ≠ [] →
      (∀ c ∈ value, is_quote c = false) →
      (∃ token, chime_login_token_cb state msg
          = [.set_session_token token, .connection_connect, .free_state]) ∧
      ((∀ c ∈ pre, is_quote c = false) →
        chime_login_token_cb state msg
          = [.set_session_token (String.mk value), .connection_connect, .free_state]) ∧
      ((∀ pre1 rest1, pre = pre1 ++ rest1 → rest1 ≠ [] →
          match_token_here (rest1 ++ q :: (token_carrier ++ (value ++ q2 :: post))) = none) →
        chime_login_token_cb state msg
          = [.set_session_token (String.mk value), .connection_connect, .free_state])) ∧
    (∀ token, token ∈ committed_tokens (chime_login_token_cb state msg) →
      ∃ data pre q value q2 post, msg.response_body = some data ∧
        data.data = pre ++ q :: (token_carrier ++ (value ++ q2 :: post)) ∧
        is_quote q = true ∧ is_quote q2 = true ∧ value ≠ [] ∧
        (∀ c ∈ value, is_quote c = false) ∧ token = String.mk value) ∧
    ((¬ ∃ data pre q value q2 post, msg.response_body = some data ∧
        data.data = pre ++ q :: (token_carrier ++ (value ++ q2 :: post)) ∧
        is_quote q = true ∧ is_quote q2 = true ∧ value ≠ [] ∧
        (∀ c ∈ value, is_quote c = false)) →
      reported_errors (chime_login_token_cb state msg) = [.BAD_RESPONSE] ∧
      committed_tokens (chime_login_token_cb state msg) = [] ∧
      submitted_requests (chime_login_token_cb state msg) = [] ∧
      release_count (chime_login_token_cb state msg) = 1) := by
  refine ⟨?_, ?_, ?_⟩
  · intro data pre q value q2 post hbody hdata hq hq2 hne hval
    have hlen : 0 < body_length data := body_length_pos data (by rw [hdata]; simp)
    have hcb := chime_login_token_cb_of_match state msg data hok hbody hlen
    refine ⟨?_, ?_, ?_⟩
    · obtain ⟨found, hfound⟩ := match_token_complete pre q q2 value post hq hq2 hne hval
      rw [← hdata] at hfound
      rw [hfound] at hcb
      exact ⟨String.mk found, hcb⟩
    · intro hpre
      have hfound : match_token data.data = some value := by
        rw [hdata, match_token_skip pre _ hpre]
        simp only [match_token, match_token_here_occurrence q q2 value post hq hq2 hne hval]
      rw [hfound] at hcb
      exact hcb
    · intro hpre
      have hfound : match_token data.data = some value := by
        rw [hdata, match_token_skip_unmatched pre _ hpre]
        simp only [match_token, match_token_here_occurrence q q2 value post hq hq2 hne hval]
      rw [hfound] at hcb
      exact hcb
  · intro token htoken
    rcases hbody : msg.response_body with _ | data
    · simp [chime_login_token_cb, hok, chime_login_parse_regex, hbody, chime_login_bad_response,
        fail, committed_tokens] at htoken
    · by_cases hlen : body_length data = 0
      · simp [chime_login_token_cb, hok, chime_login_parse_regex, hbody, hlen,
          chime_login_bad_response, fail, committed_tokens] at htoken
      · have hcb := chime_login_token_cb_of_match state msg data hok hbody (by omega)
        rcases hm : match_token data.data with _ | value
        · rw [hcb, hm] at htoken
          simp [chime_login_bad_response, fail, committed_tokens] at htoken
        · rw [hcb, hm] at htoken
          simp only [committed_tokens, List.mem_singleton] at htoken
          obtain ⟨pre, q, q2, post, heq, hq, hq2, hne, hval⟩ := match_token_sound _ _ hm
          exact ⟨data, pre, q, value, q2, post, rfl, heq, hq, hq2, hne, hval, htoken⟩
  · intro hno
    apply chime_login_token_cb_no_match state msg hok
    rcases hbody : msg.response_body with _ | data
    · simp [chime_login_parse_regex, hbody]
    · by_cases hlen : body_length data = 0
      · simp [chime_login_parse_regex, hbody, hlen]
      · rcases hm : match_token data.data with _ | value
        · simp [chime_login_parse_regex, hbody, hlen, g_regex_fetch, hm]
        · obtain ⟨pre, q, q2, post, heq, hq, hq2, hne, hval⟩ := match_token_sound _ _ hm
          exact absurd ⟨data, pre, q, value, q2, post, hbody, heq, hq, hq2, hne, hval⟩ hno

/-- C11 (amended) at the body `<a href="chime://sso_sessions?Token=ABC123">`:
the token `ABC123` is committed. -/
theorem C11_token_commit_witness :
    chime_login_token_cb login_state (response 200 "text/html" body_carrier_quoted)
      = [.set_session_token "ABC123", .connection_connect, .free_state] :=
  ((C11_token_commit login_state (response 200 "text/html" body_carrier_quoted) (by decide)).1
    body_carrier_quoted "<a href=".data (Char.ofNat 34) "ABC123".data (Char.ofNat 34) ">".data
    rfl (by decide) (by decide) (by decide) (by decide) (by decide)).2.1 (by decide)

/-! ## C12: one terminal outcome per handler run -/

/-- C12: for every response, the run of each login-flow handler of `login.c`
does nothing after releasing the flow state, and has one of three shapes:
a failure (one error reported, the state released once, no request submitted, no
token committed), the terminal success (no error, one token committed, the state
released once, no request submitted), or a continuation (no error, one request
submitted, nothing released). -/
theorem C12_single_terminal_outcome (deps : Deps) (state : ChimeLogin) (msg : SoupMessage) :
    ∀ t ∈ [signin_page_cb deps state msg, signin_search_result_cb deps state msg,
        chime_login_token_cb state msg],
      after_release t = [] ∧
      (((reported_errors t).length = 1 ∧ release_count t = 1 ∧ submitted_requests t = [] ∧
          committed_tokens t = []) ∨
        (reported_errors t = [] ∧ release_count t = 1 ∧ submitted_requests t = [] ∧
          (committed_tokens t).length = 1) ∨
        (reported_errors t = [] ∧ release_count t = 0 ∧ (submitted_requests t).length = 1 ∧
          committed_tokens t = [])) := by
  intro t ht
  simp only [List.mem_cons, List.mem_singleton, List.not_mem_nil, or_false] at ht
  rcases ht with rfl | rfl | rfl
  · by_cases hf : chime_login_fail_on_error msg = true
    · simp [signin_page_cb, hf, chime_login_request_failed, chime_login_bad_response, fail, after_release,
        reported_errors, release_count, submitted_requests, committed_tokens]
    · rcases hp : (chime_login_parse_form deps msg SEARCH_FORM true false).params with _ | params
      · simp [signin_page_cb, hf, hp, chime_login_request_failed, chime_login_bad_response, fail, after_release,
        reported_errors, release_count, submitted_requests, committed_tokens]
      · rcases he : (chime_login_parse_form deps msg SEARCH_FORM true false).email_name
          with _ | email_name
        · simp [signin_page_cb, hf, hp, he, chime_login_request_failed, chime_login_bad_response, fail, after_release,
        reported_errors, release_count, submitted_requests, committed_tokens]
        · simp [signin_page_cb, hf, hp, he, chime_login_request_failed, chime_login_bad_response, fail, after_release,
        reported_errors, release_count, submitted_requests, committed_tokens]
  · by_cases h400 : msg.status_code = 400
    · simp [signin_search_result_cb, h400, chime_login_request_failed, chime_login_bad_response, fail, after_release,
        reported_errors, release_count, submitted_requests, committed_tokens]
    · by_cases hf : chime_login_fail_on_error msg = true
      · simp [signin_search_result_cb, h400, hf, chime_login_request_failed, chime_login_bad_response, fail, after_release,
        reported_errors, release_count, submitted_requests, committed_tokens]
      · rcases hinfo : chime_login_parse_json_object deps msg with _ | info
        · simp [signin_search_result_cb, h400, hf, hinfo, chime_login_request_failed, chime_login_bad_response, fail, after_release,
        reported_errors, release_count, submitted_requests, committed_tokens]
        · rcases hpath : g_hash_table_lookup info "path" with _ | path
          · by_cases ha : g_hash_table_lookup info "provider" = some "amazon"
            · simp [signin_search_result_cb, h400, hf, hinfo, ha, hpath, chime_login_request_failed, chime_login_bad_response, fail, after_release,
        reported_errors, release_count, submitted_requests, committed_tokens]
            · by_cases hw : g_hash_table_lookup info "provider" = some "wd"
              · simp [signin_search_result_cb, h400, hf, hinfo, hw, hpath, chime_login_request_failed, chime_login_bad_response, fail, after_release,
        reported_errors, release_count, submitted_requests, committed_tokens]
              · simp [signin_search_result_cb, h400, hf, hinfo, ha, hw, chime_login_request_failed, chime_login_bad_response, fail, after_release,
        reported_errors, release_count, submitted_requests, committed_tokens]
          · by_cases ha : g_hash_table_lookup info "provider" = some "amazon"
            · simp [signin_search_result_cb, h400, hf, hinfo, ha, hpath, chime_login_request_failed, chime_login_bad_response, fail, after_release,
        reported_errors, release_count, submitted_requests, committed_tokens]
            · by_cases hw : g_hash_table_lookup info "provider" = some "wd"
              · simp [signin_search_result_cb, h400, hf, hinfo, hw, hpath, chime_login_request_failed, chime_login_bad_response, fail, after_release,
        reported_errors, release_count, submitted_requests, committed_tokens]
              · simp [signin_search_result_cb, h400, hf, hinfo, ha, hw, chime_login_request_failed, chime_login_bad_response, fail, after_release,
        reported_errors, release_count, submitted_requests, committed_tokens]
  · by_cases hf : chime_login_fail_on_error msg = true
    · simp [chime_login_token_cb, hf, chime_login_request_failed, chime_login_bad_response, fail, after_release,
        reported_errors, release_count, submitted_requests, committed_tokens]
    · rcases hm : chime_login_parse_regex msg TOKEN_REGEX 1 with _ | token
      · simp [chime_login_token_cb, hf, hm, chime_login_request_failed, chime_login_bad_response, fail, after_release,
        reported_errors, release_count, submitted_requests, committed_tokens]
      · simp [chime_login_token_cb, hf, hm, chime_login_request_failed, chime_login_bad_response, fail, after_release,
        reported_errors, release_count, submitted_requests, committed_tokens]

/-- C12 at the final response that carries a token: the token handler commits
it, releases the state once and does nothing afterwards. -/
theorem C12_single_terminal_outcome_witness :
    after_release
        (chime_login_token_cb login_state (response 200 "text/html" body_carrier_quoted)) = [] :=
  (C12_single_terminal_outcome login_deps login_state
    (response 200 "text/html" body_carrier_quoted)
    (chime_login_token_cb login_state (response 200 "text/html" body_carrier_quoted))
    (by simp)).1

/-! ## C13: completions that are no 401 -/

/-- C13 (as stated, refuted): the response has content-type application/json
and a body that does not parse; the handler is called once, with no parsed JSON
body. -/
theorem C13_unparsable_json_gives_no_node :
    cmsg_bad_json.msg.response_content_type = some "application/json" ∧
    cmsg_bad_json.msg.status_code = 200 ∧
    test_deps.json_parser_load_from_data "oops" = none ∧
    (soup_msg_cb test_deps cxn_idle cmsg_bad_json).events
      = [.callback (.other 1) cmsg_bad_json.msg none 0] :=
  ⟨rfl, rfl, rfl, rfl⟩

/-- A completion that is no 401, of a request whose handler is not `renew_cb`:
the handler is called with the parsed response and nothing else changes. -/
theorem soup_msg_cb_non_401 (deps : Deps) (cxn : ChimeConnection) (cmsg : chime_msg)
    (cb : ChimeSoupMessageCallback) (hcb : cmsg.cb = some cb) (hnr : cb ≠ .renew_cb)
    (hst : cmsg.msg.status_code ≠ 401) :
    soup_msg_cb deps cxn cmsg
      = cxn.emit (.callback cb cmsg.msg (parsed_response deps cmsg.msg) cmsg.cb_data) := by
  have hcall : ∀ node, call_cb cxn cb cmsg.msg node cmsg.cb_data
      = cxn.emit (.callback cb cmsg.msg node cmsg.cb_data) := by
    intro node
    cases cb <;> first | exact absurd rfl hnr | rfl
  simp only [soup_msg_cb, hcb, hst, parsed_response, hcall]
  simp

theorem parsed_response_isSome (deps : Deps) (msg : SoupMessage) :
    (parsed_response deps msg).isSome = true ↔
      (msg.response_content_type = some "application/json" ∧
        ∃ root, deps.json_parser_load_from_data (msg.response_body.getD "")
          = some (some root)) := by
  by_cases hct : msg.response_content_type = some "application/json"
  · rcases hparse : deps.json_parser_load_from_data (msg.response_body.getD "") with _ | root
    · simp [parsed_response, hct, hparse]
    · cases root <;> simp [parsed_response, hct, hparse]
  · simp [parsed_response, hct]

/-- C13 (amended): for every completed request with a response handler other
than `renew_cb` whose status is not 401, `soup_msg_cb` calls the handler exactly
once, with the raw response, the parsed JSON root and the handler data, and
changes nothing else: the pending queue and the token are as before. The parsed
JSON root is present if and only if the content-type is exactly
application/json and the body parses as JSON with a root. -/
theorem C13_non_401_completion (deps : Deps) (cxn : ChimeConnection) (cmsg : chime_msg)
    (cb : ChimeSoupMessageCallback) (hcb : cmsg.cb = some cb) (hnr : cb ≠ .renew_cb)
    (hst : cmsg.msg.status_code ≠ 401) :
    (soup_msg_cb deps cxn cmsg).events
      = cxn.events ++
        [.callback cb cmsg.msg (parsed_response deps cmsg.msg) cmsg.cb_data] ∧
    (soup_msg_cb deps cxn cmsg).msg_queue = cxn.msg_queue ∧
    (soup_msg_cb deps cxn cmsg).session_token = cxn.session_token ∧
    ((parsed_response deps cmsg.msg).isSome = true ↔
      (cmsg.msg.response_content_type = some "application/json" ∧
        ∃ root, deps.json_parser_load_from_data (cmsg.msg.response_body.getD "")
          = some (some root))) := by
  rw [soup_msg_cb_non_401 deps cxn cmsg cb hcb hnr hst]
  exact ⟨rfl, rfl, rfl, parsed_response_isSome deps cmsg.msg⟩

/-- C13 (amended) at the response whose JSON body does not parse. -/
theorem C13_non_401_completion_witness :
    (soup_msg_cb test_deps cxn_idle cmsg_bad_json).events
      = cxn_idle.events ++
        [.callback (.other 1) cmsg_bad_json.msg
          (parsed_response test_deps cmsg_bad_json.msg) cmsg_bad_json.cb_data] ∧
    (soup_msg_cb test_deps cxn_idle cmsg_bad_json).msg_queue = cxn_idle.msg_queue :=
  have h := C13_non_401_completion test_deps cxn_idle cmsg_bad_json (.other 1) rfl
    (by decide) (by decide)
  ⟨h.1, h.2.1⟩

/-! ## C14: the headers of a request -/

/-- C14: every request built by `chime_connection_queue_http_request` has the
given method and URI and carries, in this order, a Cookie header if and only if
the store holds a token, with the value `_aws_wt_session=` followed by the
token, the header `Accept: */*`, and the header `User-Agent` made of the product
name, a space and the version; a JSON body, when given, is sent serialised with
content type application/json, and without one the request has no body; the
request is handed to the session once. -/
theorem C14_request_headers (deps : Deps) (self : ChimeConnection) (node : Option JsonNode)
    (uri : SoupURI) (method : String) (callback : Option ChimeSoupMessageCallback)
    (cb_data : Nat) :
    (chime_connection_queue_http_request deps self node uri method callback cb_data).2.request_headers
      = (match self.session_token with
          | some token => [("Cookie", "_aws_wt_session=" ++ token)]
          | none => []) ++
        [("Accept", "*/*"), ("User-Agent", "Pidgin-Chime " ++ deps.PACKAGE_VERSION)] ∧
    (chime_connection_queue_http_request deps self node uri method callback cb_data).2.method
      = method ∧
    (chime_connection_queue_http_request deps self node uri method callback cb_data).2.uri
      = uri ∧
    (chime_connection_queue_http_request deps self node uri method callback cb_data).2.request_content_type
      = node.map (fun _ => "application/json") ∧
    (chime_connection_queue_http_request deps self node uri method callback cb_data).2.request_body
      = node.map deps.json_generator_to_data ∧
    (chime_connection_queue_http_request deps self node uri method callback cb_data).1.events
      = self.events ++
        [.queue_message
          { cb := callback, cb_data := cb_data,
            msg := (chime_connection_queue_http_request deps self node uri method callback
              cb_data).2 }] := by
  rcases htok : self.session_token with _ | token <;> cases node <;>
    simp [chime_connection_queue_http_request, new_chime_msg, htok, cookie_header,
      soup_message_headers_append, ChimeConnection.emit]

/-! ## C15: a complete registration document -/

theorem reg_present_of_all (doc : Option JsonNode) (n : Nat)
    (h : reg_present doc 15 = true) : reg_present doc n = true := by
  rw [reg_present_all, List.all_eq_true] at h
  rw [reg_present, List.all_eq_true]
  intro f hf
  exact h f (List.mem_of_mem_take hf)

/-- C15 (as stated, refuted): `doc_registration` has no `Push.RestUrl`, and
`parse_regnode` returns TRUE on it. -/
theorem C15_push_rest_url_not_required :
    reg_string cxn_registration.reg_node (["Session", "ServiceConfig", "Push"], "RestUrl")
      = none ∧
    (parse_regnode cxn_registration cxn_registration.reg_node).1 = true := by
  decide

/-- C15 (amended): for every registration document, held in `reg_node`,
`parse_regnode` returns TRUE if and only if the document contains, as strings,
every field of `reg_required`: the fields of the registration response shape
other than `Push.RestUrl`, which is not read. On TRUE each store field equals
the corresponding document value and the display name has been handed to the
host. -/
theorem C15_parse_regnode_true_iff (self : ChimeConnection) (regnode : Option JsonNode) :
    ((parse_regnode self regnode).1 = true ↔
      ∀ f ∈ reg_required, (reg_string self.reg_node f).isSome = true) ∧
    ((parse_regnode self regnode).1 = true →
      (parse_regnode self regnode).2.session_token
        = reg_string self.reg_node (["Session"], "SessionToken") ∧
      (parse_regnode self regnode).2.session_id
        = reg_string self.reg_node (["Session"], "SessionId") ∧
      (parse_regnode self regnode).2.profile_channel
        = reg_string self.reg_node (["Session", "Profile"], "profile_channel") ∧
      (parse_regnode self regnode).2.presence_channel
        = reg_string self.reg_node (["Session", "Profile"], "presence_channel") ∧
      (parse_regnode self regnode).2.profile_id
        = reg_string self.reg_node (["Session", "Profile"], "id") ∧
      (parse_regnode self regnode).2.device_id
        = reg_string self.reg_node (["Session", "Device"], "DeviceId") ∧
      (parse_regnode self regnode).2.device_channel
        = reg_string self.reg_node (["Session", "Device"], "Channel") ∧
      (parse_regnode self regnode).2.presence_url
        = reg_string self.reg_node (["Session", "ServiceConfig", "Presence"], "RestUrl") ∧
      (parse_regnode self regnode).2.reachability_url
        = reg_string self.reg_node (["Session", "ServiceConfig", "Push"], "ReachabilityUrl") ∧
      (parse_regnode self regnode).2.websocket_url
        = reg_string self.reg_node (["Session", "ServiceConfig", "Push"], "WebsocketUrl") ∧
      (parse_regnode self regnode).2.profile_url
        = reg_string self.reg_node (["Session", "ServiceConfig", "Profile"], "RestUrl") ∧
      (parse_regnode self regnode).2.contacts_url
        = reg_string self.reg_node (["Session", "ServiceConfig", "Contacts"], "RestUrl") ∧
      (parse_regnode self regnode).2.messaging_url
        = reg_string self.reg_node (["Session", "ServiceConfig", "Messaging"], "RestUrl") ∧
      (parse_regnode self regnode).2.conference_url
        = reg_string self.reg_node (["Session", "ServiceConfig", "Conference"], "RestUrl") ∧
      ConnEvent.set_display_name
          ((reg_string self.reg_node (["Session", "Profile"], "display_name")).getD "")
        ∈ (parse_regnode self regnode).2.events) := by
  obtain ⟨h0, h1, h2, h3, h4, h5, h7, h8, h9, h10, h11, h12, h13, h14, h15, -, -, hev⟩ :=
    parse_regnode_spec self regnode
  refine ⟨?_, ?_⟩
  · rw [h0, reg_present_all, List.all_eq_true]
  · intro htrue
    rw [h0] at htrue
    have hp : ∀ n, reg_present self.reg_node n = true :=
      fun n => reg_present_of_all self.reg_node n htrue
    simp only [reg_written, hp, if_true] at h1 h2 h3 h4 h5 h7 h8 h9 h10 h11 h12 h13 h14 h15
    refine ⟨h1, h2, h3, h4, h5, h7, h8, h9, h10, h11, h12, h13, h14, h15, ?_⟩
    rw [hev]
    simp [reg_events, hp]

/-- C15 (amended) at `doc_registration`: TRUE is returned and the token and the
conference URL of the document are in the store. -/
theorem C15_parse_regnode_true_iff_witness :
    (parse_regnode cxn_registration none).2.session_token
      = reg_string cxn_registration.reg_node (["Session"], "SessionToken") ∧
    (parse_regnode cxn_registration none).2.conference_url
      = reg_string cxn_registration.reg_node
          (["Session", "ServiceConfig", "Conference"], "RestUrl") :=
  have h := (C15_parse_regnode_true_iff cxn_registration none).2 (by decide)
  ⟨h.1, h.2.2.2.2.2.2.2.2.2.2.2.2.2.1⟩
/-! ## Renewal responses and what follows them -/

theorem renewal_requests_append (xs ys : List ConnEvent) :
    renewal_requests (xs ++ ys) = renewal_requests xs ++ renewal_requests ys := by
  simp [renewal_requests, queued_requests_append]

theorem replace_cookie_cb (cmsg : chime_msg) (cookie_hdr : String) :
    (cmsg.replace_cookie cookie_hdr).cb = cmsg.cb := rfl

/-- Replaying a queue that holds no renewal request issues no renewal
request. -/
theorem renewal_requests_replayed (queue : List chime_msg) (cookie_hdr : String)
    (hinv : ∀ c ∈ queue, c.cb ≠ some .renew_cb) :
    renewal_requests
      (queue.map (fun c => ConnEvent.queue_message (c.replace_cookie cookie_hdr))) = [] := by
  rw [renewal_requests, queued_requests_map, List.filter_eq_nil_iff]
  intro c hc
  obtain ⟨c0, hc0, rfl⟩ := List.mem_map.mp hc
  simpa [replace_cookie_cb] using hinv c0 hc0

theorem renewal_requests_notify (c : Prop) [Decidable c] (prop : String) :
    renewal_requests (if c then [] else [ConnEvent.notify prop]) = [] := by
  split <;> rfl

/-- The completion of a renewal request goes to `renew_cb` with the parsed
body. -/
theorem soup_msg_cb_renewal (deps : Deps) (cxn : ChimeConnection) (cmsg : chime_msg)
    (hcb : cmsg.cb = some .renew_cb) :
    soup_msg_cb deps cxn cmsg = renew_cb cxn cmsg.msg (parsed_response deps cmsg.msg) := by
  simp only [soup_msg_cb, hcb, parsed_response, call_cb]
  simp

/-- On a renewing channel the completion of a request that is no renewal hands
nothing to the session and leaves the queue non-empty. -/
theorem soup_msg_cb_renewing_quiet (deps : Deps) (cxn : ChimeConnection) (cmsg : chime_msg)
    (hq : cxn.msg_queue ≠ []) (hcb : cmsg.cb ≠ some .renew_cb) :
    (soup_msg_cb deps cxn cmsg).msg_queue ≠ [] ∧
    ∃ evs, (soup_msg_cb deps cxn cmsg).events = cxn.events ++ evs ∧ queued_requests evs = [] := by
  by_cases hst : cmsg.msg.status_code = 401
  · rw [soup_msg_cb_401_renewing deps cxn cmsg hcb hst hq]
    exact ⟨by simp, [], by simp, rfl⟩
  · rcases hc : cmsg.cb with _ | cb
    · refine ⟨?_, [], ?_, rfl⟩ <;> simp [soup_msg_cb, hc, hst, hq]
    · have hnr : cb ≠ .renew_cb := by
        intro h
        exact hcb (by rw [hc, h])
      rw [soup_msg_cb_non_401 deps cxn cmsg cb hc hnr hst]
      exact ⟨hq, [.callback cb cmsg.msg (parsed_response deps cmsg.msg) cmsg.cb_data], rfl, rfl⟩

/-- On a renewing channel a run of completions of requests that are no renewals
hands nothing to the session. -/
theorem run_completions_renewing_quiet (deps : Deps) (cmsgs : List chime_msg) :
    ∀ (cxn : ChimeConnection), cxn.msg_queue ≠ [] →
      (∀ c ∈ cmsgs, c.cb ≠ some .renew_cb) →
      (run_completions deps cxn cmsgs).msg_queue ≠ [] ∧
      ∃ evs, (run_completions deps cxn cmsgs).events = cxn.events ++ evs ∧
        queued_requests evs = [] := by
  induction cmsgs with
  | nil => intro cxn hq _; exact ⟨hq, [], by simp [run_completions], rfl⟩
  | cons c rest ih =>
    intro cxn hq h
    have hc := h c (List.mem_cons_self c rest)
    have hrest : ∀ d ∈ rest, d.cb ≠ some .renew_cb :=
      fun d hd => h d (List.mem_cons_of_mem c hd)
    obtain ⟨hq1, evs1, hev1, hno1⟩ := soup_msg_cb_renewing_quiet deps cxn c hq hc
    obtain ⟨hq2, evs2, hev2, hno2⟩ := ih (soup_msg_cb deps cxn c) hq1 hrest
    have hrun : run_completions deps cxn (c :: rest)
        = run_completions deps (soup_msg_cb deps cxn c) rest := rfl
    rw [hrun]
    refine ⟨hq2, evs1 ++ evs2, ?_, ?_⟩
    · rw [hev2, hev1, List.append_assoc]
    · rw [queued_requests_append, hno1, hno2]
      rfl

/-- No completion puts a renewal request into the pending queue. -/
theorem soup_msg_cb_queue_no_renewal (deps : Deps) (cxn : ChimeConnection) (cmsg : chime_msg)
    (hinv : ∀ c ∈ cxn.msg_queue, c.cb ≠ some .renew_cb) :
    ∀ c ∈ (soup_msg_cb deps cxn cmsg).msg_queue, c.cb ≠ some .renew_cb := by
  by_cases hcb : cmsg.cb = some .renew_cb
  · rw [soup_msg_cb_renewal deps cxn cmsg hcb]
    rcases hnode : parsed_response deps cmsg.msg with _ | node
    · rw [renew_cb_failure cxn cmsg.msg none (Or.inl rfl)]
      exact hinv
    · rcases ht : parse_string (some node) "SessionToken" with _ | t
      · rw [renew_cb_failure cxn cmsg.msg (some node) (Or.inr ht)]
        exact hinv
      · rw [renew_cb_success cxn cmsg.msg node t ht]
        intro c hc
        simp at hc
  · by_cases hst : cmsg.msg.status_code = 401
    · by_cases hq : cxn.msg_queue = []
      · rw [soup_msg_cb_401_idle deps cxn cmsg hcb hst hq]
        intro c hc
        simp only [chime_renew_token_eq, ChimeConnection.emit, List.mem_singleton] at hc
        rw [hc]
        exact hcb
      · rw [soup_msg_cb_401_renewing deps cxn cmsg hcb hst hq]
        intro c hc
        rcases List.mem_append.mp hc with h | h
        · exact hinv c h
        · rw [List.mem_singleton.mp h]
          exact hcb
    · rcases hc : cmsg.cb with _ | cb
      · have : soup_msg_cb deps cxn cmsg = cxn := by simp [soup_msg_cb, hc, hst]
        rw [this]
        exact hinv
      · have hnr : cb ≠ .renew_cb := by
          intro h
          exact hcb (by rw [hc, h])
        rw [soup_msg_cb_non_401 deps cxn cmsg cb hc hnr hst]
        exact hinv

/-! ## C16: the response to a renewal request -/

/-- C16: for every response to a renewal request, whatever its status, on a
connection whose pending queue holds no renewal request, `soup_msg_cb` hands the
response with its parsed body to `renew_cb`; nothing is appended to the pending
queue, the renewal request is not in it afterwards, and no renewal request is
issued; without a SessionToken in the parsed body the outcome is the
renewal-failure path. -/
theorem C16_renewal_response_not_queued (deps : Deps) (cxn : ChimeConnection)
    (cmsg : chime_msg) (hcb : cmsg.cb = some .renew_cb)
    (hinv : ∀ c ∈ cxn.msg_queue, c.cb ≠ some .renew_cb) :
    soup_msg_cb deps cxn cmsg = renew_cb cxn cmsg.msg (parsed_response deps cmsg.msg) ∧
    (∀ c ∈ (soup_msg_cb deps cxn cmsg).msg_queue, c ∈ cxn.msg_queue) ∧
    cmsg ∉ (soup_msg_cb deps cxn cmsg).msg_queue ∧
    renewal_requests ((soup_msg_cb deps cxn cmsg).events.drop cxn.events.length) = [] ∧
    (parse_string (parsed_response deps cmsg.msg) "SessionToken" = none →
      soup_msg_cb deps cxn cmsg
        = cxn.emit (.error_reason "Failed to renew session token")) := by
  have hsub : (∀ c ∈ (soup_msg_cb deps cxn cmsg).msg_queue, c ∈ cxn.msg_queue) ∧
      renewal_requests ((soup_msg_cb deps cxn cmsg).events.drop cxn.events.length) = [] := by
    rw [soup_msg_cb_renewal deps cxn cmsg hcb]
    rcases hnode : parsed_response deps cmsg.msg with _ | node
    · rw [renew_cb_failure cxn cmsg.msg none (Or.inl rfl)]
      simp [ChimeConnection.emit, renewal_requests, queued_requests]
    · rcases ht : parse_string (some node) "SessionToken" with _ | t
      · rw [renew_cb_failure cxn cmsg.msg (some node) (Or.inr ht)]
        simp [ChimeConnection.emit, renewal_requests, queued_requests]
      · rw [renew_cb_success cxn cmsg.msg node t ht]
        refine ⟨by simp, ?_⟩
        simp only [List.append_assoc, List.drop_left, renewal_requests_append,
          renewal_requests_notify, renewal_requests_replayed cxn.msg_queue _ hinv]
        rfl
  refine ⟨soup_msg_cb_renewal deps cxn cmsg hcb, hsub.1, ?_, hsub.2, ?_⟩
  · intro hmem
    exact hinv cmsg (hsub.1 cmsg hmem) hcb
  · intro hnone
    rw [soup_msg_cb_renewal deps cxn cmsg hcb]
    exact renew_cb_failure cxn cmsg.msg _ (Or.inr hnone)

/-- C16 at a renewal response with status 401 and no body, while two requests
are pending. -/
theorem C16_renewal_response_not_queued_witness :
    soup_msg_cb test_deps cxn_two_waiting
        { cb := some .renew_cb, cb_data := 0, msg := { renewal_msg with status_code := 401 } }
      = cxn_two_waiting.emit (.error_reason "Failed to renew session token") :=
  (C16_renewal_response_not_queued test_deps cxn_two_waiting
    { cb := some .renew_cb, cb_data := 0, msg := { renewal_msg with status_code := 401 } }
    rfl (by decide)).2.2.2.2 rfl

/-! ## C17: after a failed renewal -/

/-- C17: a renewal is outstanding only while the pending queue is non-empty.
When the renewal then fails, every later run of completions of requests, 401
responses included, hands no request to the session: `chime_renew_token` is not
called again, and the renewal requests in the log are those issued before. -/
theorem C17_no_renewal_after_failure (deps : Deps) (cxn : ChimeConnection) (msg : SoupMessage)
    (node : Option JsonNode) (later : List chime_msg) (hq : cxn.msg_queue ≠ [])
    (hfail : node = none ∨ parse_string node "SessionToken" = none)
    (hlater : ∀ c ∈ later, c.cb ≠ some .renew_cb) :
    queued_requests
        ((run_completions deps (renew_cb cxn msg node) later).events.drop
          (renew_cb cxn msg node).events.length) = [] ∧
    renewal_requests (run_completions deps (renew_cb cxn msg node) later).events
      = renewal_requests cxn.events := by
  have hfailed := renew_cb_failure cxn msg node hfail
  have hq2 : (renew_cb cxn msg node).msg_queue ≠ [] := by
    rw [hfailed]
    exact hq
  obtain ⟨-, evs, hev, hno⟩ :=
    run_completions_renewing_quiet deps later (renew_cb cxn msg node) hq2 hlater
  refine ⟨?_, ?_⟩
  · rw [hev, List.drop_left, hno]
  · rw [hev, renewal_requests_append, hfailed]
    simp [renewal_requests, ChimeConnection.emit, queued_requests_append, queued_requests, hno]

/-- C17 at the connection with two pending requests: the renewal fails, then
both requests complete with 401 once more. -/
theorem C17_no_renewal_after_failure_witness :
    renewal_requests
        (run_completions test_deps (renew_cb cxn_two_waiting renewal_msg none)
          [cmsg_a_401, cmsg_b_401]).events
      = renewal_requests cxn_two_waiting.events :=
  (C17_no_renewal_after_failure test_deps cxn_two_waiting renewal_msg none
    [cmsg_a_401, cmsg_b_401] (by decide) (Or.inl rfl) (by decide)).2

/-! ## C18: the hidden fields of a form -/

/-- The table after the loop over hidden inputs: a name met in the loop maps to
the value of its last input, any other key is as before. -/
theorem hidden_loop_lookup (inputs : List xmlNode) :
    ∀ (table : GHashTable) (k : String),
      ((inputs.map XPathNode.node).foldl insert_hidden_input table).lookup k
        = (match last_value
            (inputs.filterMap (fun input => (xmlHasProp input "name").map
              (fun name => (name, (xmlHasProp input "value").getD "")))) k with
          | some value => some (some value)
          | none => table.lookup k) := by
  induction inputs with
  | nil => intro table k; rfl
  | cons input rest ih =>
    intro table k
    rw [List.map_cons, List.foldl_cons, ih]
    rcases hname : xmlHasProp input "name" with _ | name
    · simp [insert_hidden_input, XPathNode.has_prop, hname]
    · have hvalue : (match xmlHasProp input "value" with
          | some text => text
          | none => "") = (xmlHasProp input "value").getD "" := by
        cases xmlHasProp input "value" <;> rfl
      simp only [insert_hidden_input, XPathNode.has_prop, hname, hvalue, List.filterMap_cons,
        Option.map_some', last_value, g_hash_table_insert_lookup]
      rcases last_value
          (rest.filterMap (fun input => (xmlHasProp input "name").map
            (fun name => (name, (xmlHasProp input "value").getD "")))) k with _ | later
      · by_cases hk : k = name
        · subst hk
          simp
        · have hk2 : ¬ name = k := fun h => hk h.symm
          simp [hk, hk2]
      · rfl

theorem last_value_isSome (fields : List (String × String)) (k : String) :
    (last_value fields k).isSome = true ↔ ∃ value, (k, value) ∈ fields := by
  induction fields with
  | nil => simp [last_value]
  | cons f rest ih =>
    obtain ⟨name, value⟩ := f
    rcases hl : last_value rest k with _ | later
    · have hnone : ¬ ∃ v, (k, v) ∈ rest := by
        intro h
        have := ih.mpr h
        rw [hl] at this
        exact absurd this (by simp)
      by_cases hk : name = k
      · subst hk
        simp only [last_value, hl, if_true, Option.isSome_some, true_iff]
        exact ⟨value, List.mem_cons_self _ _⟩
      · simp only [last_value, hl, hk, if_false, Option.isSome_none, Bool.false_eq_true,
          false_iff]
        rintro ⟨v, hv⟩
        rcases List.mem_cons.mp hv with h | h
        · exact hk (by simpa using (congrArg Prod.fst h).symm)
        · exact hnone ⟨v, h⟩
    · have hsome : ∃ v, (k, v) ∈ rest := ih.mp (by rw [hl]; rfl)
      obtain ⟨v, hv⟩ := hsome
      simp only [last_value, hl, Option.isSome_some, true_iff]
      exact ⟨v, List.mem_cons_of_mem _ hv⟩

/-- C18: for every form selected by `form_xpath`, the hidden-field map returned
by `chime_login_parse_form` has as keys exactly the `name` attributes of the
hidden inputs of the form that carry one, and maps each key to the `value`
attribute of the last such input in document order, the empty string when that
input has no `value` attribute; hidden inputs without a name add nothing. -/
theorem C18_hidden_fields_last_write_wins (deps : Deps) (msg : SoupMessage)
    (form_xpath : String) (want_email want_password : Bool) (ctx : xmlDoc) (form : xmlNode)
    (hhtml : parse_html deps msg = some ctx) (hsel : ctx.select form_xpath = some [form]) :
    ∃ table,
      (chime_login_parse_form deps msg form_xpath want_email want_password).params
        = some table ∧
      (∀ k, table.lookup k = (last_value (hidden_fields form) k).map some) ∧
      (∀ k, (table.lookup k).isSome = true ↔ ∃ value, (k, value) ∈ hidden_fields form) := by
  have hexists : xpath_exists ctx (.path form_xpath) = true := by
    simp [xpath_exists, xmlXPathEval, hsel]
  have hnodes : xpath_nodes ctx (.inputs form_xpath "hidden")
      = (form.descendants.filter (is_input_of_type "hidden")).map XPathNode.node := by
    simp [xpath_nodes, xmlXPathEval, hsel]
  have hlookup : ∀ k,
      (((form.descendants.filter (is_input_of_type "hidden")).map XPathNode.node).foldl
          insert_hidden_input []).lookup k
        = (last_value (hidden_fields form) k).map some := by
    intro k
    rw [hidden_loop_lookup]
    simp only [hidden_fields]
    cases last_value _ k <;> rfl
  refine ⟨_, by simp only [chime_login_parse_form, hhtml, hexists, hnodes]; rfl, hlookup, ?_⟩
  intro k
  rw [hlookup, ← last_value_isSome]
  cases last_value (hidden_fields form) k <;> simp

/-- C18 at `form_hidden`: the name `a` occurs twice and keeps its last value,
the input without a value gives the empty string, the input without a name gives
nothing. -/
theorem C18_hidden_fields_last_write_wins_witness :
    ∃ table,
      (chime_login_parse_form hidden_deps (response 200 "text/html" "page") SEARCH_FORM
        true false).params = some table ∧
      (∀ k, table.lookup k = (last_value (hidden_fields form_hidden) k).map some) :=
  (C18_hidden_fields_last_write_wins hidden_deps (response 200 "text/html" "page") SEARCH_FORM
    true false (doc_with_form form_hidden) form_hidden rfl rfl).elim
    (fun table h => ⟨table, h.1, h.2.1⟩)

/-! ## C19: no bound on renew-and-replay cycles -/

/-- One round: the 401 of a request on an idle channel issues a renewal, and
the successful renewal replays the request and leaves the channel idle. -/
theorem replay_round (deps : Deps) (msg : SoupMessage) (node : JsonNode) (t : String)
    (cxn : ChimeConnection) (cmsg : chime_msg)
    (ht : parse_string (some node) "SessionToken" = some t)
    (hq : cxn.msg_queue = []) (hcb : cmsg.cb ≠ some .renew_cb)
    (hst : cmsg.msg.status_code = 401) :
    (renew_cb (soup_msg_cb deps cxn cmsg) msg (some node)).msg_queue = [] ∧
    (renew_cb (soup_msg_cb deps cxn cmsg) msg (some node)).session_token = some t ∧
    (renewal_requests (renew_cb (soup_msg_cb deps cxn cmsg) msg (some node)).events).length
      = (renewal_requests cxn.events).length + 1 ∧
    queued_requests
        ((renew_cb (soup_msg_cb deps cxn cmsg) msg (some node)).events.drop
          (soup_msg_cb deps cxn cmsg).events.length)
      = [cmsg.replace_cookie ("_aws_wt_session=" ++ t)] := by
  have hwait := soup_msg_cb_401_idle deps cxn cmsg hcb hst hq
  have hcbne : ¬ (cmsg.replace_cookie ("_aws_wt_session=" ++ t)).cb = some .renew_cb := hcb
  rw [renew_cb_success _ msg node t ht, hwait]
  refine ⟨rfl, rfl, ?_, ?_⟩
  · simp only [chime_renew_token_eq, ChimeConnection.emit, renewal_requests_append,
      renewal_requests_notify, List.length_append, List.map_cons, List.map_nil]
    simp [renewal_requests, queued_requests, new_chime_msg_cb, hcbne]
  · simp only [List.append_assoc, List.drop_left, queued_requests_append, List.map_cons,
      List.map_nil]
    split <;> simp [queued_requests]

/-- After `n` rounds the channel is idle again and `n` renewals have been
issued. -/
theorem replay_cycles_count (deps : Deps) (msg : SoupMessage) (node : JsonNode) (t : String)
    (ht : parse_string (some node) "SessionToken" = some t) (n : Nat) :
    ∀ (cxn : ChimeConnection) (cmsg : chime_msg), cxn.msg_queue = [] →
      cmsg.cb ≠ some .renew_cb → cmsg.msg.status_code = 401 →
      (replay_cycles deps msg node n cxn cmsg).msg_queue = [] ∧
      (renewal_requests (replay_cycles deps msg node n cxn cmsg).events).length
        = (renewal_requests cxn.events).length + n := by
  induction n with
  | zero => intro cxn cmsg hq _ _; exact ⟨hq, rfl⟩
  | succ n ih =>
    intro cxn cmsg hq hcb hst
    obtain ⟨hq1, -, hcount, -⟩ := replay_round deps msg node t cxn cmsg ht hq hcb hst
    obtain ⟨hq2, hcount2⟩ := ih (renew_cb (soup_msg_cb deps cxn cmsg) msg (some node))
      (cmsg.replace_cookie
        (cookie_header (renew_cb (soup_msg_cb deps cxn cmsg) msg (some node)).session_token))
      hq1 hcb hst
    simp only [replay_cycles]
    refine ⟨hq2, ?_⟩
    rw [hcount2, hcount]
    omega

/-- C19: the channel keeps no retry count. A request that completes with 401 on
an idle channel is queued and a renewal is issued; the successful renewal
replays it once, with the new cookie, and empties the queue; when the replayed
request completes with 401 again it is queued again and a new renewal is issued;
so after `n` such rounds `n` renewal requests have been issued, for every
`n`. -/
theorem C19_unbounded_renew_and_replay (deps : Deps) (msg : SoupMessage) (node : JsonNode)
    (t : String) (cxn : ChimeConnection) (cmsg : chime_msg) (n : Nat)
    (ht : parse_string (some node) "SessionToken" = some t)
    (hq : cxn.msg_queue = []) (hcb : cmsg.cb ≠ some .renew_cb)
    (hst : cmsg.msg.status_code = 401) :
    queued_requests
        ((renew_cb (soup_msg_cb deps cxn cmsg) msg (some node)).events.drop
          (soup_msg_cb deps cxn cmsg).events.length)
      = [cmsg.replace_cookie ("_aws_wt_session=" ++ t)] ∧
    (renew_cb (soup_msg_cb deps cxn cmsg) msg (some node)).msg_queue = [] ∧
    (soup_msg_cb deps (renew_cb (soup_msg_cb deps cxn cmsg) msg (some node))
        (cmsg.replace_cookie ("_aws_wt_session=" ++ t))).msg_queue
      = [cmsg.replace_cookie ("_aws_wt_session=" ++ t)] ∧
    (renewal_requests
        (soup_msg_cb deps (renew_cb (soup_msg_cb deps cxn cmsg) msg (some node))
          (cmsg.replace_cookie ("_aws_wt_session=" ++ t))).events).length
      = (renewal_requests cxn.events).length + 2 ∧
    (replay_cycles deps msg node n cxn cmsg).msg_queue = [] ∧
    (renewal_requests (replay_cycles deps msg node n cxn cmsg).events).length
      = (renewal_requests cxn.events).length + n := by
  obtain ⟨hq1, -, hcount, hreplay⟩ := replay_round deps msg node t cxn cmsg ht hq hcb hst
  obtain ⟨hq3, hcount3⟩ := replay_cycles_count deps msg node t ht n cxn cmsg hq hcb hst
  have hagain := soup_msg_cb_401_idle deps
    (renew_cb (soup_msg_cb deps cxn cmsg) msg (some node))
    (cmsg.replace_cookie ("_aws_wt_session=" ++ t)) hcb hst hq1
  refine ⟨hreplay, hq1, ?_, ?_, hq3, hcount3⟩
  · rw [hagain]
    simp [chime_renew_token_eq, ChimeConnection.emit]
  · rw [hagain]
    simp only [chime_renew_token_eq, ChimeConnection.emit, renewal_requests_append,
      List.length_append, hcount]
    simp [renewal_requests, queued_requests, new_chime_msg_cb]

/-- C19 at three rounds of request A on the idle connection: three renewals. -/
theorem C19_unbounded_renew_and_replay_witness :
    (renewal_requests
        (replay_cycles test_deps renewal_msg renewal_node_new 3 cxn_idle cmsg_a_401).events).length
      = (renewal_requests cxn_idle.events).length + 3 :=
  (C19_unbounded_renew_and_replay test_deps renewal_msg renewal_node_new "new" cxn_idle
    cmsg_a_401 3 (by decide) rfl (by decide) (by decide)).2.2.2.2.2

end Chime
